import Mathlib

/-!
Redis client: connection lifecycle, connection pool and command facade.

A shallow embedding of `redis.h` / `redis.cc`:

* `RedisClient.ConnectWithTimeout` (redis.cc, lines 27-54) with the transport
  library (hiredis) taken as a parameter;
* `RedisConnectPool` (`Connect`, `Get`, `Return`, the two size accessors) and
  `RedisConnectPoolGuard` (`Get`, destructor) from redis.h, lines 180-234;
* `RedisClient.Reconnect` and the command facade of redis.cc: each operation sends
  one command through `Command` and decodes the reply;
* the formatting of a command template by the transport library, and a store that
  keeps what it is sent, for the claims about the commands sent.

Conventions.  A `std::string` is a `String` (it may hold the NUL character);
a `std::shared_ptr<RedisClient>` is a `Ptr`: `none` is the null pointer and
`some a` points to the client object stored at address `a` of the heap; a C++
function that can throw returns an `Outcome`; mutable members are passed in and
returned explicitly.
-/

namespace Redis

/-! ## Results of a call -/

/-- How a call of a C++ function ends: it returns a value, it throws
`std::runtime_error(what)`, or it reads through a null pointer or reads an array
element, or a variadic argument, past the last one (for which the language defines
no behaviour). -/
inductive Outcome (α : Type) where
  | returned (v : α)
  | threw (what : String)
  | nullDeref
  | outOfBounds
  deriving DecidableEq, Repr

/-! ## C strings -/

/-- The C string seen through `s.c_str()` or a `char*`: the characters before the
first NUL. -/
def c_str (s : String) : String :=
  String.mk (s.data.takeWhile (fun c => c.toNat != 0))

/-- Lexicographic comparison of two character sequences by character code. -/
def compareChars : List Char → List Char → Int
  | [], [] => 0
  | [], _ :: _ => -1
  | _ :: _, [] => 1
  | a :: as, b :: bs =>
    if a.toNat < b.toNat then -1
    else if b.toNat < a.toNat then 1
    else compareChars as bs

/-- The function `strcmp` of the C library: both arguments are read as C strings. -/
def strcmp (a b : String) : Int :=
  compareChars (c_str a).data (c_str b).data

/-! ## Replies -/

/-- Modelled from the spec: the type `redisReply` of hiredis, whose declaration is
not part of the repository.  Spec section 3: a reply is a tagged union with the
variants `Status(text)`, `Error(text)`, `Integer(i64)`, `BulkString(bytes, len)`,
`Nil` and `Array(ordered sequence of Reply)`. -/
inductive Reply where
  | Status (text : String)
  | Error (text : String)
  | Integer (i : Int)
  | BulkString (bytes : String)
  | Nil
  | Array (elements : List Reply)

/-- Modelled from the spec: the type tags of hiredis (`REDIS_REPLY_*`), one per
variant of the reply. -/
def REDIS_REPLY_STRING : Nat := 1

/-- Modelled from the spec: tag of the `Array` variant. -/
def REDIS_REPLY_ARRAY : Nat := 2

/-- Modelled from the spec: tag of the `Integer` variant. -/
def REDIS_REPLY_INTEGER : Nat := 3

/-- Modelled from the spec: tag of the `Nil` variant. -/
def REDIS_REPLY_NIL : Nat := 4

/-- Modelled from the spec: tag of the `Status` variant. -/
def REDIS_REPLY_STATUS : Nat := 5

/-- Modelled from the spec: tag of the `Error` variant. -/
def REDIS_REPLY_ERROR : Nat := 6

/-- The field `reply->type`. -/
def Reply.type : Reply → Nat
  | .Status _ => REDIS_REPLY_STATUS
  | .Error _ => REDIS_REPLY_ERROR
  | .Integer _ => REDIS_REPLY_INTEGER
  | .BulkString _ => REDIS_REPLY_STRING
  | .Nil => REDIS_REPLY_NIL
  | .Array _ => REDIS_REPLY_ARRAY

/-- The field `reply->str`: the text of a status, error or bulk string reply, and
the null pointer (`none`) for the variants that carry no text. -/
def Reply.str : Reply → Option String
  | .Status t => some t
  | .Error t => some t
  | .BulkString b => some b
  | _ => none

/-! ## The transport -/

/-- The `timeval` handed to the transport: seconds and microseconds. -/
structure timeval where
  tv_sec : Int
  tv_usec : Int
  deriving DecidableEq, Repr

/-- The external transport library: `redisConnectWithTimeout` yields a context
handle or the null pointer, `redisvCommand` sends one formatted command (given
here as its list of arguments) on a context and yields a reply or the null
pointer. -/
structure Transport where
  redisConnectWithTimeout : String → Nat → timeval → Option Nat
  redisvCommand : Option Nat → List String → Option Reply

/-- Conversion of an unsigned 64-bit value to `long long`. -/
def toLongLong (n : Nat) : Int :=
  if n % 2 ^ 64 < 2 ^ 63 then (n % 2 ^ 64 : Nat) else (n % 2 ^ 64 : Nat) - 2 ^ 64

/-- Conversion of an unsigned 64-bit value to `int`. -/
def toInt (n : Nat) : Int :=
  if n % 2 ^ 32 < 2 ^ 31 then (n % 2 ^ 32 : Nat) else (n % 2 ^ 32 : Nat) - 2 ^ 32

/-! ## RedisClient -/

/-- The data members of `RedisClient` (redis.h, lines 173-176); `m_context` is the
owned transport handle, `none` when the client holds none. -/
structure RedisClient where
  m_host : String
  m_port : Nat
  m_password : String
  m_context : Option Nat
  deriving DecidableEq, Repr

namespace RedisClient

/-- The default constructor `RedisClient::RedisClient()` (redis.cc, lines 9-11). -/
def new : RedisClient :=
  { m_host := "", m_port := 0, m_password := "", m_context := none }

/-- The call `Command(fmt, ...)` (redis.cc, lines 61-71): the formatted command goes
to `redisvCommand` on `m_context.get()`. -/
def Command (tr : Transport) (self : RedisClient) (argv : List String) : Option Reply :=
  tr.redisvCommand self.m_context argv

/-- The `timeval` built at redis.cc, line 30:
`timeval tv {(long long)ms / 1000, (int)ms % 1000 * 1000}`; `/` and `%` round
towards zero. -/
def tv (ms : Nat) : timeval :=
  { tv_sec := Int.tdiv (toLongLong ms) 1000, tv_usec := Int.tmod (toInt ms) 1000 * 1000 }

/-- The function `RedisClient::ConnectWithTimeout(ip, port, ms, password)`
(redis.cc, lines 27-54).  The result is the outcome of the call together with the
client's members after it. -/
def ConnectWithTimeout (tr : Transport) (self : RedisClient) (ip : String) (port : Nat)
    (ms : Nat) (password : String) : Outcome Bool × RedisClient :=
  let self := { self with m_host := ip, m_port := port, m_password := password }
  match tr.redisConnectWithTimeout (c_str self.m_host) self.m_port (tv ms) with
  | none => (.returned false, self)
  | some client =>
    let self := { self with m_context := some client }
    if self.m_password ≠ "" then
      match self.Command tr ["auth", c_str self.m_password] with
      | none =>
        (.threw ("auth error:( " ++ self.m_host ++ " : " ++ toString self.m_port), self)
      | some rt =>
        if rt.type ≠ REDIS_REPLY_STATUS then
          (.threw ("auth reply type error:( " ++ self.m_host ++ " : "
            ++ toString self.m_port), self)
        else
          match rt.str with
          | none => (.nullDeref, self)
          | some str =>
            if strcmp "OK" str = 0 then (.returned true, self)
            else
              (.threw ("auth error:( " ++ self.m_host ++ " : "
                ++ toString self.m_port), self)
    else (.returned true, self)

end RedisClient

/-! ## The connection pool -/

/-- A `RedisClient::Ptr`: the null pointer, or a pointer to the client object at an
address of the heap. -/
abbrev Ptr := Option Nat

/-- The client objects created so far by `std::make_shared<RedisClient>()`; the
object at index `a` has address `a`. -/
abbrev Heap := List RedisClient

/-- The data members of `RedisConnectPool` (redis.h, lines 219-220). -/
structure RedisConnectPool where
  m_connections : List Ptr
  m_freeconnections : List Ptr
  deriving DecidableEq, Repr

/-- The call `v.resize(n)` on a vector of pointers: the first `n` elements are kept
and the vector is filled up to `n` elements with null pointers. -/
def resize (v : List Ptr) (n : Nat) : List Ptr :=
  v.take n ++ List.replicate (n - v.length) none

namespace RedisConnectPool

/-- The constructor `RedisConnectPool()`: both vectors are empty. -/
def new : RedisConnectPool :=
  { m_connections := [], m_freeconnections := [] }

/-- The loop of `Connect` (redis.h, lines 194-199), with `n` iterations left: each
iteration creates a client object, calls `ConnectWithTimeout` on it and appends
the pointer to both vectors.  An exception of `ConnectWithTimeout` leaves the loop
before the two `push_back` calls. -/
def connectLoop (tr : Transport) (ip : String) (port : Nat) (ms : Nat) (password : String) :
    Nat → Heap → RedisConnectPool → Outcome Unit × Heap × RedisConnectPool
  | 0, h, p => (.returned (), h, p)
  | n + 1, h, p =>
    let conn : Ptr := some h.length
    match RedisClient.new.ConnectWithTimeout tr ip port ms password with
    | (.returned _, client) =>
      connectLoop tr ip port ms password n (h ++ [client])
        { m_connections := p.m_connections ++ [conn],
          m_freeconnections := p.m_freeconnections ++ [conn] }
    | (.threw what, _) => (.threw what, h, p)
    | (.nullDeref, _) => (.nullDeref, h, p)
    | (.outOfBounds, _) => (.outOfBounds, h, p)

/-- The function `RedisConnectPool::Connect(ip, port, count, ms, password)`
(redis.h, lines 190-200); `ms` is an `int64_t` converted to the `uint64_t`
parameter of `ConnectWithTimeout`, and `count` is a `size_t` (the loop counter is
an `int`, so `count` is below `2 ^ 31`). -/
def Connect (tr : Transport) (h : Heap) (p : RedisConnectPool) (ip : String) (port : Nat)
    (count : Nat) (ms : Int) (password : String) : Outcome Unit × Heap × RedisConnectPool :=
  let count := if count ≠ 0 then count else 1
  let p := { p with m_connections := resize p.m_connections (if count ≠ 0 then count else 1) }
  connectLoop tr ip port (ms % 2 ^ 64).toNat password count h p

/-- The accessor `ConnectPoolSize()` (redis.h, line 201). -/
def ConnectPoolSize (p : RedisConnectPool) : Nat := p.m_connections.length

/-- The accessor `FreeConnectionSize()` (redis.h, line 202). -/
def FreeConnectionSize (p : RedisConnectPool) : Nat := p.m_freeconnections.length

/-- The value read by `*conn` in `Get`, where `conn` is the iterator
`m_freeconnections.begin()` taken before `erase(begin())` and read after it.  The
iterator is the position of the first slot of the vector, not a copy of the
element: `erase` moves every later element one slot down, so the slot holds the
element that was second (`after` is the vector after the erase).  When the erased
element was the only one nothing is moved into the slot, which still holds the
pointer it held before. -/
def derefBegin (before after : List Ptr) : Ptr :=
  match after with
  | x :: _ => x
  | [] => before.headD none

/-- The function `RedisConnectPool::Get()` (redis.h, lines 204-212).  The lock
guard has no effect on a single thread of calls. -/
def Get (p : RedisConnectPool) : Outcome Ptr × RedisConnectPool :=
  if p.m_freeconnections.length = 0 then
    (.threw "without redis connection", p)
  else
    let erased := p.m_freeconnections.eraseIdx 0
    (.returned (derefBegin p.m_freeconnections erased), { p with m_freeconnections := erased })

/-- The function `RedisConnectPool::Return(conn)` (redis.h, lines 213-216). -/
def Return (p : RedisConnectPool) (conn : Ptr) : RedisConnectPool :=
  { p with m_freeconnections := p.m_freeconnections ++ [conn] }

end RedisConnectPool

/-- The data member of `RedisConnectPoolGuard` (redis.h, line 233). -/
structure RedisConnectPoolGuard where
  m_conn : Ptr
  deriving DecidableEq, Repr

namespace RedisConnectPoolGuard

/-- A guard as constructed: `m_conn` is the null pointer. -/
def new : RedisConnectPoolGuard := { m_conn := none }

/-- The function `RedisConnectPoolGuard::Get()` (redis.h, lines 228-231) on the pool
`RedisConnectPool::Instance()`: the pool's `Get` is called and its result is
assigned to `m_conn`; when it throws, `m_conn` is not assigned. -/
def Get (g : RedisConnectPoolGuard) (p : RedisConnectPool) :
    Outcome Ptr × RedisConnectPoolGuard × RedisConnectPool :=
  match p.Get with
  | (.returned conn, q) => (.returned conn, { m_conn := conn }, q)
  | (.threw what, q) => (.threw what, g, q)
  | (.nullDeref, q) => (.nullDeref, g, q)
  | (.outOfBounds, q) => (.outOfBounds, g, q)

/-- The destructor `~RedisConnectPoolGuard()` (redis.h, lines 225-227): `m_conn` is
handed to the pool's `Return`. -/
def destroy (g : RedisConnectPoolGuard) (p : RedisConnectPool) : RedisConnectPool :=
  p.Return g.m_conn

end RedisConnectPoolGuard

/-- The transport in which every connection opens and every command is answered
with the status reply `OK`. -/
def okTransport : Transport :=
  { redisConnectWithTimeout := fun _ _ _ => some 1,
    redisvCommand := fun _ _ => some (Reply.Status "OK") }

/-- The transport in which every connection opens and the server answers every
command with an error reply, as it does to `auth` with a wrong password. -/
def rejectingTransport : Transport :=
  { redisConnectWithTimeout := fun _ _ _ => some 1,
    redisvCommand := fun _ _ => some (Reply.Error "ERR invalid password") }

/-- The pool `RedisConnectPool::Instance()` after one `Connect` with `count`
connections on `okTransport`, starting from the constructed pool. -/
def poolOf (count : Nat) : RedisConnectPool :=
  (RedisConnectPool.new.Connect okTransport [] "127.0.0.1" 6379 count 50 "").2.2

/-- The heap and the pool after two calls `Connect(count = 1)` on `okTransport`,
starting from the constructed pool. -/
def connectedTwice : Outcome Unit × Heap × RedisConnectPool :=
  RedisConnectPool.Connect okTransport
    (RedisConnectPool.new.Connect okTransport [] "127.0.0.1" 6379 1 50 "").2.1
    (RedisConnectPool.new.Connect okTransport [] "127.0.0.1" 6379 1 50 "").2.2
    "127.0.0.1" 6379 1 50 ""

/-- The connections held by the live leases: the non-null `m_conn` of every guard
that has not been destroyed. -/
def heldBy (guards : List RedisConnectPoolGuard) : List Ptr :=
  (guards.map (fun g => g.m_conn)).filter (fun c => c.isSome)

/-! ## Reconnect -/

/-- Modelled from the spec: the success code `REDIS_OK` of the transport library. -/
def REDIS_OK : Int := 0

/-- Modelled from the spec: the failure code `REDIS_ERR` of the transport library. -/
def REDIS_ERR : Int := -1

/-- The function `RedisClient::Reconnect()` (redis.cc, lines 15-17):
`return redisReconnect(m_context.get());`, the `int` result of the transport's
reconnect primitive converted to `bool` (non-zero is true).  The primitive is a
parameter. -/
def RedisClient.Reconnect (redisReconnect : Option Nat → Int) (self : RedisClient) :
    Bool × RedisClient :=
  (decide (redisReconnect self.m_context ≠ 0), self)

/-! ## The command facade: reading a reply -/

/-- Modelled from the spec: the field `reply->integer`, the value of an `Integer`
reply; the transport library zero-initialises the field for the other variants. -/
def Reply.integer : Reply → Int
  | .Integer i => i
  | _ => 0

/-- Modelled from the spec: the fields `reply->elements` and `reply->element`, the
elements of an `Array` reply; the other variants have zero elements. -/
def Reply.element : Reply → List Reply
  | .Array es => es
  | _ => []

/-- Conversion of a `long long` to `int32_t` (or `int`): the value modulo `2 ^ 32`
in the signed range. -/
def toInt32 (i : Int) : Int :=
  (i + 2 ^ 31) % 2 ^ 32 - 2 ^ 31

/-- The operator `!` on an `int`: 1 for zero and 0 otherwise. -/
def logicalNot (n : Nat) : Nat :=
  if n = 0 then 1 else 0

/-- A read of the characters behind a `char*`: undefined through the null pointer,
and the continuation applied to the text otherwise. -/
def readStr {α : Type} (p : Option String) (k : String → Outcome α) : Outcome α :=
  match p with
  | none => .nullDeref
  | some s => k s

/-- The `enum class RedisDataType` (redis.h, lines 28-35). -/
inductive RedisDataType where
  | none
  | string
  | list
  | set
  | zset
  | hash
  deriving DecidableEq, Repr

/-- The splitting of a format string into arguments by the transport library when
the call passes no variadic argument (`Command(cmd.str().c_str())`): `cur` is the
argument being built, `touched` tells whether it has been started, `argv` holds
the finished arguments.  A space ends the current argument when it has been
started and is dropped otherwise; `%%` stands for one `%`; a `%` that ends the
text is an ordinary character; any other `%` starts a conversion, which reads a
variadic argument: the result is then `none`. -/
def formatLoop : List Char → List Char → Bool → List String → Option (List String)
  | [], cur, touched, argv => some (if touched then argv ++ [String.mk cur] else argv)
  | c :: rest, cur, touched, argv =>
    if c.toNat = 37 ∧ rest ≠ [] then
      match rest with
      | [] => none
      | d :: rest2 =>
        if d.toNat = 37 then formatLoop rest2 (cur ++ [d]) true argv
        else none
    else if c.toNat = 32 then
      if touched then formatLoop rest [] false (argv ++ [String.mk cur])
      else formatLoop rest cur touched argv
    else formatLoop rest (cur ++ [c]) true argv

/-- The arguments of the command sent for a format string without variadic
arguments, or `none` when the format holds a conversion. -/
def formatWords (fmt : String) : Option (List String) :=
  formatLoop fmt.data [] false []

namespace RedisClient

/-- The call `Command(cmd.str().c_str())`: the command text is the format string and
no variadic argument is passed.  The result is the reply to the command of the
arguments of the text; when the text holds a conversion the transport library
reads a variadic argument that was not passed (it does so for the conversions it
accepts, `%s`, `%b` and the numeric ones; a `%` followed by any other character is
counted with them here). -/
def CommandText (tr : Transport) (self : RedisClient) (cmd : String) :
    Outcome (Option Reply) :=
  match formatWords (c_str cmd) with
  | some argv => .returned (self.Command tr argv)
  | none => .outOfBounds

end RedisClient


/-! ## The command facade: key operations (redis.cc, lines 72-192) -/

namespace RedisClient

/-- The function `RedisClient::del` (redis.cc, lines 72-79).  With no reply the
condition `!reply || ...` holds and the message is built from `reply->str`. -/
def del (tr : Transport) (self : RedisClient) (key : String) : Outcome Int :=
  match self.Command tr ["DEL", c_str key] with
  | none => .nullDeref
  | some reply =>
    if reply.type = REDIS_REPLY_ERROR then
      readStr reply.str fun str =>
        .threw ("redis error, command : del " ++ key ++ ", error message : " ++ c_str str)
    else .returned (toInt32 reply.integer)

/-- The function `RedisClient::dump` (redis.cc, lines 80-92). -/
def dump (tr : Transport) (self : RedisClient) (key : String) : Outcome (Option String) :=
  match self.Command tr ["DUMP", c_str key] with
  | none => .returned none
  | some reply =>
    if reply.type = REDIS_REPLY_NIL then
      if reply.type = REDIS_REPLY_ERROR then
        readStr reply.str fun str =>
          .threw ("Redis error, command : DUMP " ++ key ++ ", error message : " ++ c_str str)
      else .returned none
    else if reply.type ≠ REDIS_REPLY_STRING then
      .threw ("Unexpected reply type when executing DUMP for key: " ++ key)
    else readStr reply.str fun str => .returned (some str)

/-- The function `RedisClient::exists` (redis.cc, lines 93-96):
`reply && !reply->type == REDIS_REPLY_ERROR && reply->integer`, where `!` applies
to `reply->type` before the comparison. -/
def «exists» (tr : Transport) (self : RedisClient) (key : String) : Bool :=
  match self.Command tr ["EXISTS", c_str key] with
  | none => false
  | some reply =>
    decide (logicalNot reply.type = REDIS_REPLY_ERROR) && decide (reply.integer ≠ 0)

/-- The function `RedisClient::expire` (redis.cc, lines 97-100). -/
def expire (tr : Transport) (self : RedisClient) (key : String) (seconds : Int) : Bool :=
  match self.Command tr ["EXPIRE", c_str key, toString seconds] with
  | none => false
  | some reply =>
    decide (logicalNot reply.type = REDIS_REPLY_ERROR) && decide (reply.integer ≠ 0)

/-- The function `RedisClient::keys` (redis.cc, lines 113-124), first its loop over
the elements: each key is built from the `char*` of the element alone. -/
def keysLoop : List Reply → List String → Outcome (List String)
  | [], keys => .returned keys
  | element :: rest, keys =>
    match element.str with
    | none => .nullDeref
    | some str => keysLoop rest (keys ++ [c_str str])

/-- The function `RedisClient::keys` (redis.cc, lines 113-124). -/
def keys (tr : Transport) (self : RedisClient) (pattern : String) : Outcome (List String) :=
  match self.Command tr ["KEYS", c_str pattern] with
  | none => .nullDeref
  | some reply =>
    if reply.type = REDIS_REPLY_ERROR then
      readStr reply.str fun str =>
        .threw ("redis error, command : keys " ++ pattern ++ ", error message : " ++ c_str str)
    else keysLoop reply.element []

/-- The function `RedisClient::move` (redis.cc, lines 125-128). -/
def move (tr : Transport) (self : RedisClient) (key : String) (destination_database : Int) :
    Bool :=
  match self.Command tr ["MOVE", c_str key, toString destination_database] with
  | none => false
  | some reply =>
    decide (logicalNot reply.type = REDIS_REPLY_ERROR) && decide (reply.integer ≠ 0)

/-- The function `RedisClient::persist` (redis.cc, lines 129-132). -/
def persist (tr : Transport) (self : RedisClient) (key : String) : Bool :=
  match self.Command tr ["PERSIST", c_str key] with
  | none => false
  | some reply =>
    decide (logicalNot reply.type = REDIS_REPLY_ERROR) && decide (reply.integer ≠ 0)

/-- The function `RedisClient::pttl` (redis.cc, lines 133-140). -/
def pttl (tr : Transport) (self : RedisClient) (key : String) : Outcome Int :=
  match self.Command tr ["PTTL", c_str key] with
  | none => .nullDeref
  | some reply =>
    if reply.type = REDIS_REPLY_ERROR then
      readStr reply.str fun str =>
        .threw ("redis error, command : pttl " ++ key ++ ", error message : " ++ c_str str)
    else .returned (toInt32 reply.integer)

/-- The function `RedisClient::ttl` (redis.cc, lines 141-148). -/
def ttl (tr : Transport) (self : RedisClient) (key : String) : Outcome Int :=
  match self.Command tr ["TTL", c_str key] with
  | none => .nullDeref
  | some reply =>
    if reply.type = REDIS_REPLY_ERROR then
      readStr reply.str fun str =>
        .threw ("redis error, command : ttl " ++ key ++ ", error message : " ++ c_str str)
    else .returned (toInt32 reply.integer)

/-- The function `RedisClient::randonkey` (redis.cc, lines 149-155): the key is
built from the `char*` of the reply alone. -/
def randonkey (tr : Transport) (self : RedisClient) : Outcome (Option String) :=
  match self.Command tr ["RANDOMKEY"] with
  | none => .returned none
  | some reply =>
    if reply.type = REDIS_REPLY_ERROR then .returned none
    else readStr reply.str fun str => .returned (some (c_str str))

/-- The function `RedisClient::type` (redis.cc, lines 164-178). -/
def type (tr : Transport) (self : RedisClient) (key : String) : Outcome RedisDataType :=
  match self.Command tr ["TYPE", c_str key] with
  | none => .nullDeref
  | some reply =>
    if reply.type = REDIS_REPLY_ERROR then
      readStr reply.str fun str =>
        .threw ("redis error, command : type " ++ key ++ ", error message : " ++ c_str str)
    else
      readStr reply.str fun str =>
        if strcmp str "none" = 0 then .returned .none
        else if strcmp str "string" = 0 then .returned .string
        else if strcmp str "list" = 0 then .returned .list
        else if strcmp str "set" = 0 then .returned .set
        else if strcmp str "zset" = 0 then .returned .zset
        else if strcmp str "hash" = 0 then .returned .hash
        else
          .threw ("redis error, command : type " ++ key ++ ", error message : invalid type ("
            ++ c_str str ++ ")")

/-! ## The command facade: string operations (redis.cc, lines 179-473) -/

/-- The function `RedisClient::set` (redis.cc, lines 179-192). -/
def set (tr : Transport) (self : RedisClient) (key value : String) : Outcome Bool :=
  match self.Command tr ["SET", c_str key, c_str value] with
  | none => .nullDeref
  | some reply =>
    if reply.type = REDIS_REPLY_ERROR then
      readStr reply.str fun str =>
        .threw ("redis error, command : SET " ++ key ++ " " ++ value ++ ", error message : "
          ++ c_str str)
    else if reply.type = REDIS_REPLY_STATUS then
      readStr reply.str fun str =>
        if strcmp str "OK" = 0 then .returned true
        else .threw ("Unexpected reply type when executing SET for key: " ++ key)
    else if reply.type = REDIS_REPLY_NIL then .returned true
    else .threw ("Unexpected reply type when executing SET for key: " ++ key)

/-- The function `RedisClient::get` (redis.cc, lines 193-209). -/
def get (tr : Transport) (self : RedisClient) (key : String) : Outcome (Option String) :=
  match self.Command tr ["GET", c_str key] with
  | none => .returned none
  | some reply =>
    if reply.type = REDIS_REPLY_ERROR then
      readStr reply.str fun str =>
        .threw ("redis error, command : GET " ++ key ++ ", error message : " ++ c_str str)
    else if reply.type = REDIS_REPLY_STRING then
      readStr reply.str fun str => .returned (some str)
    else if reply.type = REDIS_REPLY_NIL then .returned none
    else .threw ("Unexpected reply type when executing GET for key: " ++ key)

/-- The function `RedisClient::getrange` (redis.cc, lines 210-224). -/
def getrange (tr : Transport) (self : RedisClient) (key : String) (start «end» : Int) :
    Outcome (Option String) :=
  match self.Command tr ["GETRANGE", c_str key, toString start, toString «end»] with
  | none => .returned none
  | some reply =>
    if reply.type = REDIS_REPLY_ERROR then
      readStr reply.str fun str =>
        .threw ("Redis error, command : GETRANGE " ++ key ++ " " ++ toString start ++ " "
          ++ toString «end» ++ ", error message : " ++ c_str str)
    else if reply.type = REDIS_REPLY_STRING then
      readStr reply.str fun str => .returned (some str)
    else .threw ("Unexpected reply type when executing GETRANGE for key: " ++ key)

/-- The function `RedisClient::getset` (redis.cc, lines 225-239). -/
def getset (tr : Transport) (self : RedisClient) (key value : String) :
    Outcome (Option String) :=
  match self.Command tr ["GETSET", c_str key, c_str value] with
  | none => .returned none
  | some reply =>
    if reply.type = REDIS_REPLY_ERROR then
      readStr reply.str fun str =>
        .threw ("Redis error, command: GETSET " ++ key ++ " " ++ value ++ ", error message: "
          ++ c_str str)
    else if reply.type = REDIS_REPLY_STRING then
      readStr reply.str fun str => .returned (some str)
    else .threw ("Unexpected reply type when executing GETSET for key: " ++ key)

/-- The function `RedisClient::getbit` (redis.cc, lines 240-254); the result is an
`int32_t`. -/
def getbit (tr : Transport) (self : RedisClient) (key : String) (offset : Int) :
    Outcome (Option Int) :=
  match self.Command tr ["GETBIT", c_str key, toString offset] with
  | none => .returned none
  | some reply =>
    if reply.type = REDIS_REPLY_ERROR then
      readStr reply.str fun str =>
        .threw ("Redis error, command: GETBIT " ++ key ++ " " ++ toString offset
          ++ ", error message: " ++ c_str str)
    else if reply.type = REDIS_REPLY_INTEGER then .returned (some (toInt32 reply.integer))
    else .threw ("Unexpected reply type when executing GETBIT for key: " ++ key)

end RedisClient

namespace RedisClient

/-- The text built by `cmd << head` followed by `cmd << " " << item` for every item
(the loops over keys, fields, members and values that build a command text). -/
def appendItems (head : String) (items : List String) : String :=
  items.foldl (fun cmd item => cmd ++ " " ++ item) head

/-- The text built by `cmd << head` followed by
`cmd << " " << pair.first << " " << pair.second` for every pair. -/
def appendPairs (head : String) (values : List (String × String)) : String :=
  values.foldl (fun cmd pair => cmd ++ " " ++ pair.1 ++ " " ++ pair.2) head

/-- The loop of `RedisClient::mget` over the elements of the reply (redis.cc, lines
271-280). -/
def mgetLoop : List Reply → List (Option String) → Outcome (List (Option String))
  | [], values => .returned values
  | element :: rest, values =>
    if element.type = REDIS_REPLY_STRING then
      match element.str with
      | none => .nullDeref
      | some str => mgetLoop rest (values ++ [some str])
    else if element.type = REDIS_REPLY_NIL then mgetLoop rest (values ++ [none])
    else .threw "Unexpected element type within MGET reply"

/-- The function `RedisClient::mget` (redis.cc, lines 255-282). -/
def mget (tr : Transport) (self : RedisClient) (keys : List String) :
    Outcome (List (Option String)) :=
  let cmd := appendItems "MGET" keys
  match self.CommandText tr cmd with
  | .threw what => .threw what
  | .nullDeref => .nullDeref
  | .outOfBounds => .outOfBounds
  | .returned none => .threw "Unexpected reply type when executing MGET"
  | .returned (some reply) =>
    if reply.type ≠ REDIS_REPLY_ARRAY then
      if reply.type = REDIS_REPLY_ERROR then
        readStr reply.str fun str =>
          .threw ("Redis error, command: MGET " ++ cmd ++ ", error message: " ++ c_str str)
      else .threw "Unexpected reply type when executing MGET"
    else mgetLoop reply.element []

/-- The function `RedisClient::setbit` (redis.cc, lines 283-297). -/
def setbit (tr : Transport) (self : RedisClient) (key : String) (offset bit : Int) :
    Outcome Bool :=
  match self.Command tr ["SETBIT", c_str key, toString offset, toString bit] with
  | none => .returned false
  | some reply =>
    if reply.type = REDIS_REPLY_ERROR then
      readStr reply.str fun str =>
        .threw ("Redis error, command: SETBIT " ++ key ++ " " ++ toString offset ++ " "
          ++ toString bit ++ ", error message: " ++ c_str str)
    else if reply.type = REDIS_REPLY_INTEGER then .returned true
    else .threw ("Unexpected reply type when executing SETBIT for key: " ++ key)

/-- The function `RedisClient::setex` (redis.cc, lines 298-312). -/
def setex (tr : Transport) (self : RedisClient) (key : String) (seconds : Int)
    (value : String) : Outcome Bool :=
  match self.Command tr ["SETEX", c_str key, toString seconds, c_str value] with
  | none => .returned false
  | some reply =>
    if reply.type = REDIS_REPLY_ERROR then
      readStr reply.str fun str =>
        .threw ("Redis error, command: SETEX " ++ key ++ " " ++ toString seconds ++ " "
          ++ value ++ ", error message: " ++ c_str str)
    else if reply.type = REDIS_REPLY_STATUS then
      readStr reply.str fun str =>
        if strcmp str "OK" = 0 then .returned true
        else .threw ("Unexpected reply type or content when executing SETEX for key: " ++ key)
    else .threw ("Unexpected reply type or content when executing SETEX for key: " ++ key)

/-- The function `RedisClient::setnx` (redis.cc, lines 313-329). -/
def setnx (tr : Transport) (self : RedisClient) (key value : String) : Outcome Bool :=
  match self.Command tr ["SETNX", c_str key, c_str value] with
  | none => .returned false
  | some reply =>
    if reply.type = REDIS_REPLY_ERROR then
      readStr reply.str fun str =>
        .threw ("Redis error, command: SETNX " ++ key ++ " " ++ value ++ ", error message: "
          ++ c_str str)
    else if reply.type = REDIS_REPLY_INTEGER ∧ reply.integer = 1 then .returned true
    else if reply.integer = 0 then .returned false
    else .threw ("Unexpected reply type or content when executing SETNX for key: " ++ key)

/-- The function `RedisClient::setrange` (redis.cc, lines 330-344). -/
def setrange (tr : Transport) (self : RedisClient) (key : String) (offset : Int)
    (value : String) : Outcome Bool :=
  match self.Command tr ["SETRANGE", c_str key, toString offset, c_str value] with
  | none => .returned false
  | some reply =>
    if reply.type = REDIS_REPLY_ERROR then
      readStr reply.str fun str =>
        .threw ("Redis error, command: SETRANGE " ++ key ++ " " ++ toString offset ++ " "
          ++ value ++ ", error message: " ++ c_str str)
    else if reply.type = REDIS_REPLY_INTEGER then .returned true
    else .threw ("Unexpected reply type when executing SETRANGE for key: " ++ key)

/-- The function `RedisClient::strlen` (redis.cc, lines 345-359); the result is an
`int32_t`. -/
def strlen (tr : Transport) (self : RedisClient) (key : String) : Outcome (Option Int) :=
  match self.Command tr ["STRLEN", c_str key] with
  | none => .returned none
  | some reply =>
    if reply.type = REDIS_REPLY_ERROR then
      readStr reply.str fun str =>
        .threw ("Redis error, command: STRLEN " ++ key ++ ", error message: " ++ c_str str)
    else if reply.type = REDIS_REPLY_INTEGER then .returned (some (toInt32 reply.integer))
    else .threw ("Unexpected reply type when executing STRLEN for key: " ++ key)

/-- The function `RedisClient::mset` (redis.cc, lines 360-377). -/
def mset (tr : Transport) (self : RedisClient) (values : List (String × String)) :
    Outcome Bool :=
  let cmd := appendPairs "MSET" values
  match self.CommandText tr cmd with
  | .threw what => .threw what
  | .nullDeref => .nullDeref
  | .outOfBounds => .outOfBounds
  | .returned none => .threw "Unexpected reply or failed to execute MSET"
  | .returned (some reply) =>
    if reply.type ≠ REDIS_REPLY_STATUS then
      if reply.type = REDIS_REPLY_ERROR then
        readStr reply.str fun str =>
          .threw ("Redis error, command: MSET " ++ cmd ++ ", error message: " ++ c_str str)
      else .threw "Unexpected reply or failed to execute MSET"
    else
      readStr reply.str fun str =>
        if strcmp str "OK" ≠ 0 then .threw "Unexpected reply or failed to execute MSET"
        else .returned true

/-- The function `RedisClient::incr` (redis.cc, lines 378-392). -/
def incr (tr : Transport) (self : RedisClient) (key : String) : Outcome Int :=
  match self.Command tr ["INCR", c_str key] with
  | none => .threw "Failed to increment key without specific error message"
  | some reply =>
    if reply.type = REDIS_REPLY_ERROR then
      readStr reply.str fun str =>
        .threw ("Redis error, command: INCR " ++ key ++ ", error message: " ++ c_str str)
    else if reply.type = REDIS_REPLY_INTEGER then .returned reply.integer
    else .threw ("Unexpected reply type when executing INCR for key: " ++ key)

/-! ## The command facade: hash operations (redis.cc, lines 474-608) -/

/-- The function `RedisClient::hdel` (redis.cc, lines 474-483). -/
def hdel (tr : Transport) (self : RedisClient) (key : String) (fields : List String) :
    Outcome Bool :=
  match self.CommandText tr (appendItems ("HDEL " ++ key) fields) with
  | .threw what => .threw what
  | .nullDeref => .nullDeref
  | .outOfBounds => .outOfBounds
  | .returned none => .returned false
  | .returned (some reply) =>
    .returned (decide (reply.type = REDIS_REPLY_INTEGER) && decide (reply.integer > 0))

/-- The function `RedisClient::hexists` (redis.cc, lines 484-487). -/
def hexists (tr : Transport) (self : RedisClient) (key field : String) : Bool :=
  match self.Command tr ["HEXISTS", c_str key, c_str field] with
  | none => false
  | some reply => decide (reply.type = REDIS_REPLY_INTEGER) && decide (reply.integer = 1)

/-- The function `RedisClient::hget` (redis.cc, lines 488-496). -/
def hget (tr : Transport) (self : RedisClient) (key field : String) :
    Outcome (Option String) :=
  match self.Command tr ["HGET", c_str key, c_str field] with
  | none => .threw ("Unexpected reply type when executing HGET for key: " ++ key)
  | some reply =>
    if reply.type = REDIS_REPLY_STRING then
      readStr reply.str fun str => .returned (some str)
    else if reply.type = REDIS_REPLY_NIL then .returned none
    else .threw ("Unexpected reply type when executing HGET for key: " ++ key)

/-- The assignment `result[field] = value` on a `std::unordered_map`, the map given
as the list of its entries: the value of an entry with that field is replaced, and a
new entry is added when there is none. -/
def assign : List (String × String) → String → String → List (String × String)
  | [], field, value => [(field, value)]
  | (f, v) :: rest, field, value =>
    if f = field then (f, value) :: rest else (f, v) :: assign rest field value

/-- The loop of `RedisClient::hgetall` (redis.cc, lines 503-511): `i` advances by two
and both `element[i]` and `element[i + 1]` are read while `i < elements`; with one
element left, `element[i + 1]` is past the end of the array.  The field is built
from the `char*` alone, the value from the `char*` and the length. -/
def hgetallLoop (key : String) :
    List Reply → List (String × String) → Outcome (List (String × String))
  | [], result => .returned result
  | [_], _ => .outOfBounds
  | fieldReply :: valueReply :: rest, result =>
    if fieldReply.type = REDIS_REPLY_STRING ∧ valueReply.type = REDIS_REPLY_STRING then
      match fieldReply.str, valueReply.str with
      | some field, some value => hgetallLoop key rest (assign result (c_str field) value)
      | _, _ => .nullDeref
    else .threw ("Invalid pair in HGETALL reply for key: " ++ key)

/-- The function `RedisClient::hgetall` (redis.cc, lines 497-513). -/
def hgetall (tr : Transport) (self : RedisClient) (key : String) :
    Outcome (List (String × String)) :=
  match self.Command tr ["HGETALL", c_str key] with
  | none => .threw ("Unexpected reply when executing HGETALL for key: " ++ key)
  | some reply =>
    if reply.type ≠ REDIS_REPLY_ARRAY then
      .threw ("Unexpected reply when executing HGETALL for key: " ++ key)
    else hgetallLoop key reply.element []

/-- The function `RedisClient::hincrby` (redis.cc, lines 514-520). -/
def hincrby (tr : Transport) (self : RedisClient) (key field : String) (increment : Int) :
    Outcome Int :=
  match self.Command tr ["HINCRBY", c_str key, c_str field, toString increment] with
  | none => .threw ("Unexpected reply when executing HINCRBY for key: " ++ key)
  | some reply =>
    if reply.type ≠ REDIS_REPLY_INTEGER then
      .threw ("Unexpected reply when executing HINCRBY for key: " ++ key)
    else .returned reply.integer

/-- The loop shared by `hkeys` and `hvals` (redis.cc, lines 534-541 and 599-606):
every element must be a bulk string and is copied with its length; `what` is the
message thrown otherwise. -/
def bulkLoop (what : String) : List Reply → List String → Outcome (List String)
  | [], items => .returned items
  | element :: rest, items =>
    if element.type = REDIS_REPLY_STRING then
      match element.str with
      | none => .nullDeref
      | some str => bulkLoop what rest (items ++ [str])
    else .threw what

/-- The function `RedisClient::hkeys` (redis.cc, lines 528-543). -/
def hkeys (tr : Transport) (self : RedisClient) (key : String) : Outcome (List String) :=
  match self.Command tr ["HKEYS", c_str key] with
  | none => .threw ("Unexpected reply when executing HKEYS for key: " ++ key)
  | some reply =>
    if reply.type ≠ REDIS_REPLY_ARRAY then
      .threw ("Unexpected reply when executing HKEYS for key: " ++ key)
    else bulkLoop ("Invalid entry in HKEYS reply for key: " ++ key) reply.element []

/-- The function `RedisClient::hmset` (redis.cc, lines 575-584); `values` lists the
entries of the map in the order of its iteration. -/
def hmset (tr : Transport) (self : RedisClient) (key : String)
    (values : List (String × String)) : Outcome Bool :=
  match self.CommandText tr (appendPairs ("HMSET " ++ key) values) with
  | .threw what => .threw what
  | .nullDeref => .nullDeref
  | .outOfBounds => .outOfBounds
  | .returned none => .returned false
  | .returned (some reply) =>
    .returned (decide (reply.type = REDIS_REPLY_STRING) &&
      (match reply.str with
       | none => false
       | some str => decide (strcmp str "OK" = 0)))

/-- The function `RedisClient::hset` (redis.cc, lines 585-588). -/
def hset (tr : Transport) (self : RedisClient) (key field value : String) : Bool :=
  match self.Command tr ["HSET", c_str key, c_str field, c_str value] with
  | none => false
  | some reply => decide (reply.type = REDIS_REPLY_INTEGER) && decide (reply.integer = 1)

/-- The function `RedisClient::hvals` (redis.cc, lines 593-608). -/
def hvals (tr : Transport) (self : RedisClient) (key : String) : Outcome (List String) :=
  match self.Command tr ["HVALS", c_str key] with
  | none => .threw ("Unexpected reply when executing HVALS for key: " ++ key)
  | some reply =>
    if reply.type ≠ REDIS_REPLY_ARRAY then
      .threw ("Unexpected reply when executing HVALS for key: " ++ key)
    else bulkLoop ("Invalid entry in HVALS reply for key: " ++ key) reply.element []

end RedisClient

/-! ## The command facade: set, sorted set and list operations -/

namespace RedisClient

/-- The function `RedisClient::sadd` (redis.cc, lines 609-623): the result and the
value stored in the `int&` parameter `addedCount`. -/
def sadd (tr : Transport) (self : RedisClient) (key : String) (members : List String) :
    Outcome (Bool × Int) :=
  match self.CommandText tr (appendItems ("SADD " ++ key) members) with
  | .threw what => .threw what
  | .nullDeref => .nullDeref
  | .outOfBounds => .outOfBounds
  | .returned none => .threw ("Unexpected reply when executing SADD for key: " ++ key)
  | .returned (some reply) =>
    if reply.type = REDIS_REPLY_INTEGER then .returned (true, toInt32 reply.integer)
    else .threw ("Unexpected reply when executing SADD for key: " ++ key)

/-- The function `RedisClient::scard` (redis.cc, lines 624-631). -/
def scard (tr : Transport) (self : RedisClient) (key : String) : Outcome Int :=
  match self.Command tr ["SCARD", c_str key] with
  | none => .threw ("Unexpected reply when executing SCARD for key: " ++ key)
  | some reply =>
    if reply.type = REDIS_REPLY_INTEGER then .returned reply.integer
    else .threw ("Unexpected reply when executing SCARD for key: " ++ key)

/-- The function `RedisClient::sdiffstore` (redis.cc, lines 655-664). -/
def sdiffstore (tr : Transport) (self : RedisClient) (destination : String)
    (keys : List String) : Outcome Bool :=
  match self.CommandText tr (appendItems ("SDIFFSTORE " ++ destination) keys) with
  | .threw what => .threw what
  | .nullDeref => .nullDeref
  | .outOfBounds => .outOfBounds
  | .returned none => .returned false
  | .returned (some reply) =>
    .returned (decide (reply.type = REDIS_REPLY_INTEGER) && decide (reply.integer ≥ 0))

/-- The function `RedisClient::spop` (redis.cc, lines 734-743). -/
def spop (tr : Transport) (self : RedisClient) (key : String) : Outcome (Option String) :=
  match self.Command tr ["SPOP", c_str key] with
  | none => .threw ("Unexpected reply when executing SPOP for key: " ++ key)
  | some reply =>
    if reply.type = REDIS_REPLY_NIL then .returned none
    else if reply.type = REDIS_REPLY_STRING then
      readStr reply.str fun str => .returned (some str)
    else .threw ("Unexpected reply when executing SPOP for key: " ++ key)

/-- The function `RedisClient::zadd` (redis.cc, lines 816-830): the result and the
value stored in `addedCount`.  A score is a `double`; its type and the text that
`cmd << pair.second` writes for it are parameters. -/
def zadd {δ : Type} (showScore : δ → String) (tr : Transport) (self : RedisClient)
    (key : String) (membersWithScores : List (String × δ)) : Outcome (Bool × Int) :=
  let cmd := membersWithScores.foldl
    (fun cmd pair => cmd ++ " " ++ showScore pair.2 ++ " " ++ pair.1) ("ZADD " ++ key)
  match self.CommandText tr cmd with
  | .threw what => .threw what
  | .nullDeref => .nullDeref
  | .outOfBounds => .outOfBounds
  | .returned none => .threw ("Unexpected reply when executing ZADD for key: " ++ key)
  | .returned (some reply) =>
    if reply.type = REDIS_REPLY_INTEGER then .returned (true, toInt32 reply.integer)
    else .threw ("Unexpected reply when executing ZADD for key: " ++ key)

/-- The function `RedisClient::zscore` (redis.cc, lines 1072-1081).  The score is a
`double`; its type and the function `std::stod` on a C string are parameters. -/
def zscore {δ : Type} (stod : String → Outcome δ) (tr : Transport) (self : RedisClient)
    (key member : String) : Outcome (Option δ) :=
  match self.Command tr ["ZSCORE", c_str key, c_str member] with
  | none => .threw ("Unexpected reply when executing ZSCORE for key: " ++ key)
  | some reply =>
    if reply.type = REDIS_REPLY_STRING then
      readStr reply.str fun str =>
        match stod (c_str str) with
        | .returned score => .returned (some score)
        | .threw what => .threw what
        | .nullDeref => .nullDeref
        | .outOfBounds => .outOfBounds
    else if reply.type = REDIS_REPLY_NIL then .returned none
    else .threw ("Unexpected reply when executing ZSCORE for key: " ++ key)

/-- The function `RedisClient::lindex` (redis.cc, lines 1154-1163). -/
def lindex (tr : Transport) (self : RedisClient) (key : String) (index : Int) :
    Outcome (Option String) :=
  match self.Command tr ["LINDEX", c_str key, toString index] with
  | none => .threw ("Unexpected reply when executing LINDEX for key: " ++ key)
  | some reply =>
    if reply.type = REDIS_REPLY_NIL then .returned none
    else if reply.type = REDIS_REPLY_STRING then
      readStr reply.str fun str => .returned (some str)
    else .threw ("Unexpected reply when executing LINDEX for key: " ++ key)

/-- The function `RedisClient::lpop` (redis.cc, lines 1183-1192). -/
def lpop (tr : Transport) (self : RedisClient) (key : String) : Outcome (Option String) :=
  match self.Command tr ["LPOP", c_str key] with
  | none => .threw ("Unexpected reply when executing LPOP for key: " ++ key)
  | some reply =>
    if reply.type = REDIS_REPLY_NIL then .returned none
    else if reply.type = REDIS_REPLY_STRING then
      readStr reply.str fun str => .returned (some str)
    else .threw ("Unexpected reply when executing LPOP for key: " ++ key)

/-- The function `RedisClient::lpush` (redis.cc, lines 1193-1206). -/
def lpush (tr : Transport) (self : RedisClient) (key : String) (values : List String) :
    Outcome Int :=
  match self.CommandText tr (appendItems ("LPUSH " ++ key) values) with
  | .threw what => .threw what
  | .nullDeref => .nullDeref
  | .outOfBounds => .outOfBounds
  | .returned none => .threw ("Unexpected reply when executing LPUSH for key: " ++ key)
  | .returned (some reply) =>
    if reply.type = REDIS_REPLY_INTEGER then .returned reply.integer
    else .threw ("Unexpected reply when executing LPUSH for key: " ++ key)

/-- The function `RedisClient::rpop` (redis.cc, lines 1259-1268). -/
def rpop (tr : Transport) (self : RedisClient) (key : String) : Outcome (Option String) :=
  match self.Command tr ["RPOP", c_str key] with
  | none => .threw ("Unexpected reply when executing RPOP for key: " ++ key)
  | some reply =>
    if reply.type = REDIS_REPLY_NIL then .returned none
    else if reply.type = REDIS_REPLY_STRING then
      readStr reply.str fun str => .returned (some str)
    else .threw ("Unexpected reply when executing RPOP for key: " ++ key)

end RedisClient

/-! ## Transports and inputs used at concrete points -/

/-- The transport in which every connection opens and every command gets the given
reply (`none`: no reply at all). -/
def replyTransport (reply : Option Reply) : Transport :=
  { redisConnectWithTimeout := fun _ _ _ => some 1,
    redisvCommand := fun _ _ => reply }

/-- A connected client. -/
def connectedClient : RedisClient :=
  { m_host := "127.0.0.1", m_port := 6379, m_password := "", m_context := some 1 }

/-- The text `a`, a NUL character, `b`: three bytes. -/
def aNulB : String := String.mk [Char.ofNat 97, Char.ofNat 0, Char.ofNat 98]

/-- The statement that the text `part` occurs in the text `whole`. -/
def occursIn (part whole : String) : Prop := part.data <:+: whole.data

instance (part whole : String) : Decidable (occursIn part whole) :=
  inferInstanceAs (Decidable (part.data <:+: whole.data))

/-! ## Formatting a template with arguments -/

/-- A variadic argument of a `Command(fmt, ...)` call: a `char*` (the characters of
a C string) or an integer. -/
inductive VarArg where
  | str (s : String)
  | int (i : Int)
  deriving DecidableEq, Repr

/-- The result of formatting a template: the arguments of the command; or the
formatter reads a variadic argument after the last one passed; or the template
holds a conversion that is not modelled or does not fit the kind of the next
argument. -/
inductive Formatted where
  | argv (words : List String)
  | missingArgument
  | other
  deriving DecidableEq, Repr

/-- The formatting of a template by the transport library, for the conversions the
templates of redis.cc use: `%s` appends the characters of the next argument, `%d`
and `%lld` append the decimal text of the next argument, `%%` stands for one `%`,
a `%` that ends the template is an ordinary character, and a space ends the current
argument when it has been started.  `args` are the variadic arguments not yet
consumed. -/
def formatLoopArgs :
    List Char → List VarArg → List Char → Bool → List String → Formatted
  | [], _, cur, touched, argv => .argv (if touched then argv ++ [String.mk cur] else argv)
  | c :: rest, args, cur, touched, argv =>
    if c.toNat = 37 ∧ rest ≠ [] then
      match rest with
      | [] => .other
      | d :: rest2 =>
        if d.toNat = 37 then formatLoopArgs rest2 args (cur ++ [d]) true argv
        else if d.toNat = 115 then
          match args with
          | [] => .missingArgument
          | .str s :: args2 => formatLoopArgs rest2 args2 (cur ++ s.data) true argv
          | .int _ :: _ => .other
        else if d.toNat = 100 then
          match args with
          | [] => .missingArgument
          | .int i :: args2 => formatLoopArgs rest2 args2 (cur ++ (toString i).data) true argv
          | .str _ :: _ => .other
        else if d.toNat = 108 then
          match rest2 with
          | l :: e :: rest4 =>
            if l.toNat = 108 ∧ e.toNat = 100 then
              match args with
              | [] => .missingArgument
              | .int i :: args2 =>
                formatLoopArgs rest4 args2 (cur ++ (toString i).data) true argv
              | .str _ :: _ => .other
            else .other
          | _ => .other
        else .other
    else if c.toNat = 32 then
      if touched then formatLoopArgs rest args [] false (argv ++ [String.mk cur])
      else formatLoopArgs rest args cur touched argv
    else formatLoopArgs rest args (cur ++ [c]) true argv

/-- The command that `Command(fmt, args...)` formats. -/
def formatArgs (fmt : String) (args : List VarArg) : Formatted :=
  formatLoopArgs fmt.data args [] false []

/-- The number of conversions of a template that consume a variadic argument: every
`%` that is followed by a character other than `%`. -/
def placeholders : List Char → Nat
  | [] => 0
  | [_] => 0
  | c :: d :: rest =>
    if c.toNat = 37 then
      if d.toNat = 37 then placeholders rest else placeholders rest + 1
    else placeholders (d :: rest)

namespace RedisClient

/-- The call `Command(fmt, args...)` with the template given as written in the source:
the reply to the formatted command, or the read past the arguments when the
formatting fails (the templates below have no conversion of the kind `other`). -/
def CommandFmt (tr : Transport) (self : RedisClient) (fmt : String) (args : List VarArg) :
    Outcome (Option Reply) :=
  match formatArgs fmt args with
  | .argv words => .returned (self.Command tr words)
  | .missingArgument => .outOfBounds
  | .other => .outOfBounds

end RedisClient

/-! ## The command facade: further operations -/

namespace RedisClient

/-- The function `RedisClient::expireat` (redis.cc, lines 101-104). -/
def expireat (tr : Transport) (self : RedisClient) (key : String) (unix_timestamp : Int) :
    Bool :=
  match self.Command tr ["EXPIREAT", c_str key, toString unix_timestamp] with
  | none => false
  | some reply =>
    decide (logicalNot reply.type = REDIS_REPLY_ERROR) && decide (reply.integer ≠ 0)

/-- The function `RedisClient::pexpire` (redis.cc, lines 105-108). -/
def pexpire (tr : Transport) (self : RedisClient) (key : String) (milliseconds : Int) :
    Bool :=
  match self.Command tr ["PEXPIRE", c_str key, toString milliseconds] with
  | none => false
  | some reply =>
    decide (logicalNot reply.type = REDIS_REPLY_ERROR) && decide (reply.integer ≠ 0)

/-- The function `RedisClient::pexpireat` (redis.cc, lines 109-112). -/
def pexpireat (tr : Transport) (self : RedisClient) (key : String)
    (milliseconds_timestamp : Int) : Bool :=
  match self.Command tr ["PEXPIREAT", c_str key, toString milliseconds_timestamp] with
  | none => false
  | some reply =>
    decide (logicalNot reply.type = REDIS_REPLY_ERROR) && decide (reply.integer ≠ 0)

/-- The function `RedisClient::rename` (redis.cc, lines 156-159):
`reply && !reply->type == REDIS_REPLY_ERROR`. -/
def rename (tr : Transport) (self : RedisClient) (old_key new_key : String) : Bool :=
  match self.Command tr ["RENAME", c_str old_key, c_str new_key] with
  | none => false
  | some reply => decide (logicalNot reply.type = REDIS_REPLY_ERROR)

/-- The function `RedisClient::renamenx` (redis.cc, lines 160-163). -/
def renamenx (tr : Transport) (self : RedisClient) (old_key new_key : String) : Bool :=
  match self.Command tr ["RENAMENX", c_str old_key, c_str new_key] with
  | none => false
  | some reply =>
    decide (logicalNot reply.type = REDIS_REPLY_ERROR) && decide (reply.integer ≠ 0)

/-- The function `RedisClient::hsetnx` (redis.cc, lines 589-592), with the template
and the arguments of its `Command` call as written. -/
def hsetnx (tr : Transport) (self : RedisClient) (key field value : String) : Outcome Bool :=
  match self.CommandFmt tr "HSETNX %s %s %s %s"
      [.str (c_str key), .str (c_str field), .str (c_str value)] with
  | .returned none => .returned false
  | .returned (some reply) =>
    .returned (decide (reply.type = REDIS_REPLY_INTEGER) && decide (reply.integer = 1))
  | .threw what => .threw what
  | .nullDeref => .nullDeref
  | .outOfBounds => .outOfBounds

/-- The function `RedisClient::linsert` (redis.cc, lines 1164-1173), with the template
and the arguments of its `Command` call as written. -/
def linsert (tr : Transport) (self : RedisClient) (key pivot value : String)
    (before : Bool) : Outcome Bool :=
  let position := if before then "BEFORE" else "AFTER"
  match self.CommandFmt tr "LINSERT %s %s %s %s %s"
      [.str (c_str key), .str (c_str position), .str (c_str pivot), .str (c_str value)] with
  | .returned none => .threw ("Unexpected reply when executing LINSERT for key: " ++ key)
  | .returned (some reply) =>
    if reply.type = REDIS_REPLY_INTEGER then .returned (decide (reply.integer ≥ 0))
    else .threw ("Unexpected reply when executing LINSERT for key: " ++ key)
  | .threw what => .threw what
  | .nullDeref => .nullDeref
  | .outOfBounds => .outOfBounds

/-- The loop of `RedisClient::lrange` over the elements (redis.cc, lines 1223-1227):
an element that is not a bulk string is passed over. -/
def lrangeLoop : List Reply → List String → Outcome (List String)
  | [], elements => .returned elements
  | element :: rest, elements =>
    if element.type = REDIS_REPLY_STRING then
      match element.str with
      | none => .nullDeref
      | some str => lrangeLoop rest (elements ++ [str])
    else lrangeLoop rest elements

/-- The function `RedisClient::lrange` (redis.cc, lines 1217-1234). -/
def lrange (tr : Transport) (self : RedisClient) (key : String) (start stop : Int) :
    Outcome (List String) :=
  let command := "LRANGE " ++ key ++ " " ++ toString start ++ " " ++ toString stop
  match self.CommandText tr command with
  | .threw what => .threw what
  | .nullDeref => .nullDeref
  | .outOfBounds => .outOfBounds
  | .returned none => .threw ("Unexpected reply type when executing LRANGE for key: " ++ key)
  | .returned (some reply) =>
    if reply.type = REDIS_REPLY_ARRAY then lrangeLoop reply.element []
    else if reply.type = REDIS_REPLY_NIL then .returned []
    else .threw ("Unexpected reply type when executing LRANGE for key: " ++ key)

/-- The function `RedisClient::lset` (redis.cc, lines 1243-1250), with the template
and the arguments of its `Command` call as written. -/
def lset (tr : Transport) (self : RedisClient) (key : String) (index : Int)
    (value : String) : Outcome Bool :=
  match self.CommandFmt tr "LSET %s %lld %s %s"
      [.str (c_str key), .int index, .str (c_str value)] with
  | .returned none => .threw ("Unexpected reply when executing LSET for key: " ++ key)
  | .returned (some reply) =>
    if reply.type = REDIS_REPLY_STATUS then
      readStr reply.str fun str => .returned (decide (strcmp str "OK" = 0))
    else .threw ("Unexpected reply when executing LSET for key: " ++ key)
  | .threw what => .threw what
  | .nullDeref => .nullDeref
  | .outOfBounds => .outOfBounds

/-- The function `RedisClient::rpoplpush` (redis.cc, lines 1269-1276), with the
template and the arguments of its `Command` call as written. -/
def rpoplpush (tr : Transport) (self : RedisClient) (source destination : String) :
    Outcome String :=
  match self.CommandFmt tr "RPOPLPUSH %s %s %s"
      [.str (c_str source), .str (c_str destination)] with
  | .returned none =>
    .threw ("Unexpected reply when executing RPOPLPUSH from " ++ source ++ " to "
      ++ destination)
  | .returned (some reply) =>
    if reply.type = REDIS_REPLY_STRING then readStr reply.str fun str => .returned str
    else
      .threw ("Unexpected reply when executing RPOPLPUSH from " ++ source ++ " to "
        ++ destination)
  | .threw what => .threw what
  | .nullDeref => .nullDeref
  | .outOfBounds => .outOfBounds

/-- The loop that writes the keys of `blpop` and `brpop` (redis.cc, lines 1108-1110 and
1127-1129): `cmd << keys[i] << (i < keys.size() - 1 ? " " : "")`, with `size` the
number of keys and `i` the index of the first key left. -/
def appendKeys (size : Nat) : List String → Nat → String → String
  | [], _, cmd => cmd
  | key :: rest, i, cmd =>
    appendKeys size rest (i + 1) (cmd ++ key ++ (if i < size - 1 then " " else ""))

/-- The command text that `RedisClient::blpop` builds (redis.cc, lines 1106-1111) and
hands to `Command` as the format string. -/
def blpopCommand (keys : List String) (timeout : Int) : String :=
  appendKeys keys.length keys 0 "BLPOP " ++ toString timeout

/-- The command text that `RedisClient::brpop` builds (redis.cc, lines 1125-1130). -/
def brpopCommand (keys : List String) (timeout : Int) : String :=
  appendKeys keys.length keys 0 "BRPOP " ++ toString timeout

end RedisClient

/-! ## A store -/

/-- The value of a field in a map given as the list of its entries. -/
def lookup : List (String × String) → String → Option String
  | [], _ => none
  | (f, v) :: rest, field => if f = field then some v else lookup rest field

/-- Modelled from the spec: the assignments of `MSET k1 v1 ... kn vn`, in order. -/
def storePairs (db : List (String × String)) : List String → List (String × String)
  | k :: v :: rest => storePairs (RedisClient.assign db k v) rest
  | _ => db

/-- Modelled from the spec: a store that keeps the value argument it receives
(section 8, round trip): `SET key value` assigns the value to the key and answers
`OK`, `MSET` assigns every pair in order, and `GET key` answers the bulk string
kept for the key, or `Nil`.  The result is the reply and the store after the
command. -/
def serve (db : List (String × String)) (argv : List String) :
    Option Reply × List (String × String) :=
  match argv with
  | [] => (some (.Error "ERR empty command"), db)
  | cmd :: rest =>
    if cmd = "SET" then
      match rest with
      | [k, v] => (some (.Status "OK"), RedisClient.assign db k v)
      | _ => (some (.Error "ERR wrong number of arguments"), db)
    else if cmd = "GET" then
      match rest with
      | [k] =>
        (match lookup db k with
         | some v => some (.BulkString v)
         | none => some .Nil, db)
      | _ => (some (.Error "ERR wrong number of arguments"), db)
    else if cmd = "MSET" then
      if rest.length % 2 = 0 ∧ rest ≠ [] then (some (.Status "OK"), storePairs db rest)
      else (some (.Error "ERR wrong number of arguments"), db)
    else (some (.Error "ERR unknown command"), db)

/-- The transport of a client connected to the store in the state `db`. -/
def storeTransport (db : List (String × String)) : Transport :=
  { redisConnectWithTimeout := fun _ _ _ => some 1,
    redisvCommand := fun _ argv => (serve db argv).1 }


/-! ## Inputs of the pairing and batching claims -/

/-- The elements of the `Array` reply that lists the given field/value pairs in order,
every field and every value a bulk string. -/
def pairElements (pairs : List (String × String)) : List Reply :=
  pairs.flatMap fun pair => [Reply.BulkString pair.1, Reply.BulkString pair.2]

/-- The keys and values of a list of pairs in order: `k1, v1, ..., kn, vn`. -/
def flattenPairs (values : List (String × String)) : List String :=
  values.flatMap fun pair => [pair.1, pair.2]

/-- A text that is not empty and holds no space, no `%` and no NUL character. -/
def cleanWord (w : String) : Prop :=
  w.data ≠ [] ∧ ∀ c ∈ w.data, c.toNat ≠ 32 ∧ c.toNat ≠ 37 ∧ c.toNat ≠ 0

instance (w : String) : Decidable (cleanWord w) :=
  inferInstanceAs
    (Decidable (w.data ≠ [] ∧ ∀ c ∈ w.data, c.toNat ≠ 32 ∧ c.toNat ≠ 37 ∧ c.toNat ≠ 0))

/-- The text `a`, a NUL character, `c`: three bytes. -/
def aNulC : String := String.mk [Char.ofNat 97, Char.ofNat 0, Char.ofNat 99]

/-! ## Further inputs and observers -/

/-- The text `OK`, a NUL character, `junk`: seven bytes. -/
def okNulJunk : String :=
  String.mk [Char.ofNat 79, Char.ofNat 75, Char.ofNat 0, Char.ofNat 106, Char.ofNat 117,
    Char.ofNat 110, Char.ofNat 107]

/-- The transport in which every connection opens and exactly the command `argv` gets
the given reply; every other command gets no reply. -/
def answerOnly (argv : List String) (reply : Option Reply) : Transport :=
  { redisConnectWithTimeout := fun _ _ _ => some 1,
    redisvCommand := fun _ sent => if sent = argv then reply else none }

/-- A text without a NUL character. -/
def noNul (s : String) : Prop := ∀ c ∈ s.data, c.toNat ≠ 0

instance (s : String) : Decidable (noNul s) :=
  inferInstanceAs (Decidable (∀ c ∈ s.data, c.toNat ≠ 0))

/-- The text that `what()` yields for a `std::runtime_error` constructed from the
`std::string` `message`: a C string, the characters before the first NUL. -/
def what (message : String) : String := c_str message

/-! ## Supporting lemmas -/

theorem compareChars_eq_zero_iff (a b : List Char) : compareChars a b = 0 ↔ a = b := by
  induction a generalizing b with
  | nil => cases b <;> simp [compareChars]
  | cons x xs ih =>
    cases b with
    | nil => simp [compareChars]
    | cons y ys =>
      simp only [compareChars]
      by_cases h1 : x.toNat < y.toNat
      · have hne : x ≠ y := by
          intro h
          subst h
          exact Nat.lt_irrefl _ h1
        simp [h1, hne]
      · by_cases h2 : y.toNat < x.toNat
        · have hne : x ≠ y := by
            intro h
            subst h
            exact Nat.lt_irrefl _ h2
          simp [h1, h2, hne]
        · have hxy : x = y := by
            apply Char.ext
            apply UInt32.ext
            have : x.toNat = y.toNat := Nat.le_antisymm (Nat.le_of_not_lt h2) (Nat.le_of_not_lt h1)
            exact this
          simp [h1, h2, hxy, ih]

theorem strcmp_eq_zero_iff (a b : String) : strcmp a b = 0 ↔ c_str a = c_str b := by
  unfold strcmp
  rw [compareChars_eq_zero_iff]
  constructor
  · intro h
    exact String.ext h
  · intro h
    rw [h]

theorem c_str_OK : c_str "OK" = "OK" := by decide

/-- A string without a NUL character is its own C string. -/
theorem c_str_of_no_nul (s : String) (h : ∀ c ∈ s.data, c.toNat ≠ 0) : c_str s = s := by
  unfold c_str
  have : s.data.takeWhile (fun c => c.toNat != 0) = s.data := by
    rw [List.takeWhile_eq_self_iff]
    intro c hc
    simpa using h c hc
  rw [this]

/-- One `Get` on a free list with at least two entries: the first entry is erased
and the entry read through the iterator is the one that was second. -/
theorem RedisConnectPool.Get_cons_cons (owned : List Ptr) (a b : Ptr) (rest : List Ptr) :
    RedisConnectPool.Get { m_connections := owned, m_freeconnections := a :: b :: rest }
      = (.returned b, { m_connections := owned, m_freeconnections := b :: rest }) := by
  simp [RedisConnectPool.Get, derefBegin]

/-- A `Get` on a non-empty free list returns and shortens the free list by one. -/
theorem RedisConnectPool.Get_of_ne_nil (p : RedisConnectPool) (h : p.m_freeconnections ≠ []) :
    ∃ c, p.Get = (.returned c,
      { m_connections := p.m_connections, m_freeconnections := p.m_freeconnections.tail }) := by
  obtain ⟨owned, free⟩ := p
  cases free with
  | nil => exact absurd rfl h
  | cons a rest => exact ⟨derefBegin (a :: rest) rest, by simp [RedisConnectPool.Get]⟩

/-- The loop of `Connect` when the connection attempt completes without throwing:
`n` client objects are created and their pointers are appended to both vectors. -/
theorem RedisConnectPool.connectLoop_returned (tr : Transport) (ip : String) (port ms : Nat)
    (password : String) (b : Bool) (client : RedisClient)
    (hatt : RedisClient.new.ConnectWithTimeout tr ip port ms password = (.returned b, client)) :
    ∀ (n : Nat) (h : Heap) (p : RedisConnectPool),
      RedisConnectPool.connectLoop tr ip port ms password n h p
        = (.returned (), h ++ List.replicate n client,
            { m_connections := p.m_connections ++ (List.range' h.length n).map some,
              m_freeconnections := p.m_freeconnections ++ (List.range' h.length n).map some }) := by
  intro n
  induction n with
  | zero => intro h p; simp [RedisConnectPool.connectLoop]
  | succ k ih =>
    intro h p
    simp only [RedisConnectPool.connectLoop, hatt]
    rw [ih]
    simp [List.range'_succ, List.replicate_succ]

/-- The pool after `Connect` on a constructed pool, for every `count`, when the
connection attempt completes without throwing: with `n` the count (1 for count 0),
the owned vector holds `n` null pointers followed by the `n` created connections,
and the free vector holds the `n` created connections. -/
theorem RedisConnectPool.Connect_new (tr : Transport) (h : Heap) (ip : String) (port count : Nat)
    (ms : Int) (password : String) (b : Bool) (client : RedisClient)
    (hatt : RedisClient.new.ConnectWithTimeout tr ip port (ms % 2 ^ 64).toNat password
      = (.returned b, client)) :
    (RedisConnectPool.new.Connect tr h ip port count ms password).2.2
      = { m_connections := List.replicate (if count ≠ 0 then count else 1) none
            ++ (List.range' h.length (if count ≠ 0 then count else 1)).map some,
          m_freeconnections := (List.range' h.length (if count ≠ 0 then count else 1)).map some } := by
  simp only [RedisConnectPool.Connect]
  rw [RedisConnectPool.connectLoop_returned tr ip port _ password b client hatt]
  by_cases hc : count = 0 <;> simp [RedisConnectPool.new, resize, hc]

/-- The destructor of a guard on which `Get` was never called appends the null
pointer to the free list, whatever the pool. -/
theorem RedisConnectPoolGuard.destroy_new (p : RedisConnectPool) :
    (RedisConnectPoolGuard.new.destroy p).m_freeconnections = p.m_freeconnections ++ [none] := by
  rfl

/-! ## The pool claims -/

/-- C1 (defect of the code).  `Connect` with `count = 2` on a constructed pool, every
connection attempt returning: the call returns, the free list holds the two created
connections, but the owned list has four entries, two null pointers followed by the
two connections, so `ConnectPoolSize()` is 4 and not 2.  With `count = 0` one
connection is created and `ConnectPoolSize()` is 2. -/
theorem C1_Connect_owned_size :
    (RedisConnectPool.new.Connect okTransport [] "127.0.0.1" 6379 2 50 "").1 = .returned () ∧
    (poolOf 2).FreeConnectionSize = 2 ∧
    (poolOf 2).m_freeconnections = [some 0, some 1] ∧
    (poolOf 2).ConnectPoolSize = 4 ∧
    (poolOf 2).m_connections = [none, none, some 0, some 1] ∧
    (poolOf 0).FreeConnectionSize = 1 ∧
    (poolOf 0).ConnectPoolSize = 2 ∧
    (poolOf 0).m_connections = [none, some 0] := by
  decide

/-- C2 (defect of the code).  In the pool initialised once with `Connect(count = 2)`:
with no live lease the free connections and the leased ones number 2 while
`ConnectPoolSize()` is 4; after one guard has called `Get()` the guard holds the
connection 1, which is also still the entry of the free list, and the sum is again 2. -/
theorem C2_pool_invariant_at_two :
    (poolOf 2).FreeConnectionSize + (heldBy []).length = 2 ∧
    (poolOf 2).ConnectPoolSize = 4 ∧
    RedisConnectPoolGuard.new.Get (poolOf 2)
      = (.returned (some 1), { m_conn := some 1 },
          { m_connections := [none, none, some 0, some 1], m_freeconnections := [some 1] }) ∧
    heldBy [(RedisConnectPoolGuard.new.Get (poolOf 2)).2.1] = [some 1] ∧
    some 1 ∈ (RedisConnectPoolGuard.new.Get (poolOf 2)).2.2.m_freeconnections ∧
    (RedisConnectPoolGuard.new.Get (poolOf 2)).2.2.FreeConnectionSize
      + (heldBy [(RedisConnectPoolGuard.new.Get (poolOf 2)).2.1]).length = 2 ∧
    (RedisConnectPoolGuard.new.Get (poolOf 2)).2.2.ConnectPoolSize = 4 := by
  decide

/-- C3 (defect of the code).  `Get` on the free list `[0, 1]`: the entry erased is the
connection 0, the connection returned is 1, which is still in the free list after
the call; the free list after the call is `[1]` and not the previous list without
one occurrence of the returned connection, which is `[0]`. -/
theorem C3_Get_returns_second :
    (poolOf 2).m_freeconnections = [some 0, some 1] ∧
    (poolOf 2).Get = (.returned (some 1),
      { m_connections := [none, none, some 0, some 1], m_freeconnections := [some 1] }) ∧
    (poolOf 2).m_freeconnections.erase (some 1) = [some 0] ∧
    some 1 ∈ (poolOf 2).Get.2.m_freeconnections ∧
    some 0 ∉ (poolOf 2).Get.2.m_freeconnections := by
  decide

/-- C4.  On every pool whose free list is empty `Get` throws
`std::runtime_error("without redis connection")` and leaves the pool as it was: the
free list is still empty and the owned list is unchanged. -/
theorem C4_Get_empty_throws (p : RedisConnectPool) (h : p.m_freeconnections = []) :
    p.Get = (.threw "without redis connection", p) ∧
    p.Get.2.m_freeconnections = [] ∧
    p.Get.2.m_connections = p.m_connections := by
  have hget : p.Get = (.threw "without redis connection", p) := by
    simp [RedisConnectPool.Get, h]
  rw [hget]
  exact ⟨rfl, h, rfl⟩

/-- C4 at the pool with the owned list `[null, 0]` and an empty free list. -/
theorem C4_Get_empty_throws_witness :
    ({ m_connections := [none, some 0], m_freeconnections := [] } : RedisConnectPool).Get
      = (.threw "without redis connection",
          { m_connections := [none, some 0], m_freeconnections := [] }) ∧
    ({ m_connections := [none, some 0], m_freeconnections := [] } : RedisConnectPool).Get.2.m_freeconnections
      = [] ∧
    ({ m_connections := [none, some 0], m_freeconnections := [] } : RedisConnectPool).Get.2.m_connections
      = [none, some 0] :=
  C4_Get_empty_throws { m_connections := [none, some 0], m_freeconnections := [] } rfl

/-- C5 (defect of the code).  A lease on the free list `[0, 1]`, whose entries are
distinct: the guard's `Get()` returns the connection 1 and, once the guard is
destroyed, the free list is `[1, 1]`; the connection 0 is gone from it and the
connection 1 is in it twice. -/
theorem C5_lease_round_trip_at_two :
    (poolOf 2).m_freeconnections = [some 0, some 1] ∧
    (poolOf 2).m_freeconnections.Nodup ∧
    (RedisConnectPoolGuard.new.Get (poolOf 2)).1 = .returned (some 1) ∧
    ((RedisConnectPoolGuard.new.Get (poolOf 2)).2.1.destroy
        (RedisConnectPoolGuard.new.Get (poolOf 2)).2.2).m_freeconnections = [some 1, some 1] ∧
    some 0 ∉ ((RedisConnectPoolGuard.new.Get (poolOf 2)).2.1.destroy
        (RedisConnectPoolGuard.new.Get (poolOf 2)).2.2).m_freeconnections ∧
    ((RedisConnectPoolGuard.new.Get (poolOf 2)).2.1.destroy
        (RedisConnectPoolGuard.new.Get (poolOf 2)).2.2).m_freeconnections.count (some 1) = 2 := by
  decide

/-- C6 (defect of the code).  A guard destroyed without a call of `Get()` on the pool
with the free list `[0]` leaves the free list `[0, null]`; a guard whose only `Get()`
threw on an empty free list leaves the free list `[null]` when destroyed. -/
theorem C6_destroy_unused_guard :
    (poolOf 1).m_freeconnections = [some 0] ∧
    (RedisConnectPoolGuard.new.destroy (poolOf 1)).m_freeconnections = [some 0, none] ∧
    RedisConnectPoolGuard.new.Get { m_connections := [none, some 0], m_freeconnections := [] }
      = (.threw "without redis connection", { m_conn := none },
          { m_connections := [none, some 0], m_freeconnections := [] }) ∧
    ((RedisConnectPoolGuard.new.Get
          { m_connections := [none, some 0], m_freeconnections := [] }).2.1.destroy
        (RedisConnectPoolGuard.new.Get
          { m_connections := [none, some 0], m_freeconnections := [] }).2.2).m_freeconnections
      = [none] := by
  decide

/-- Two calls of `Get()` on one guard, for every pool with at least two free
connections: each call makes its own acquisition from the pool:
`FreeConnectionSize()` drops by one at each call, the guard keeps the connection of
the second call, and destroying the guard calls `Return` once, with that connection,
so that `FreeConnectionSize()` ends one below its value before the first call; the
owned list is unchanged. -/
theorem RedisConnectPoolGuard.Get_twice (g : RedisConnectPoolGuard) (p : RedisConnectPool)
    (h : 2 ≤ p.FreeConnectionSize) :
    ∃ (c1 c2 : Ptr) (p1 p2 : RedisConnectPool),
      g.Get p = (.returned c1, { m_conn := c1 }, p1) ∧
      RedisConnectPoolGuard.Get { m_conn := c1 } p1 = (.returned c2, { m_conn := c2 }, p2) ∧
      p1.FreeConnectionSize + 1 = p.FreeConnectionSize ∧
      p2.FreeConnectionSize + 2 = p.FreeConnectionSize ∧
      (RedisConnectPoolGuard.destroy { m_conn := c2 } p2).m_freeconnections
        = p2.m_freeconnections ++ [c2] ∧
      (RedisConnectPoolGuard.destroy { m_conn := c2 } p2).FreeConnectionSize + 1
        = p.FreeConnectionSize ∧
      (RedisConnectPoolGuard.destroy { m_conn := c2 } p2).m_connections = p.m_connections := by
  obtain ⟨owned, free⟩ := p
  match free, h with
  | a :: b :: rest, _ =>
    obtain ⟨c2, hc2⟩ := RedisConnectPool.Get_of_ne_nil
      { m_connections := owned, m_freeconnections := b :: rest } (by simp)
    refine ⟨b, c2, { m_connections := owned, m_freeconnections := b :: rest },
      { m_connections := owned, m_freeconnections := rest }, ?_, ?_, ?_, ?_, ?_, ?_, ?_⟩
    · simp [RedisConnectPoolGuard.Get, RedisConnectPool.Get_cons_cons]
    · simp only [RedisConnectPoolGuard.Get, hc2]
      simp
    · simp [RedisConnectPool.FreeConnectionSize]
    · simp [RedisConnectPool.FreeConnectionSize]
    · rfl
    · simp [RedisConnectPoolGuard.destroy, RedisConnectPool.Return,
        RedisConnectPool.FreeConnectionSize]
    · rfl

/-- C7 (defect of the code).  On the free list `[0, 1, 2]` the first `Get()` on a guard
returns the connection 1 and the second `Get()` on the same guard returns the
connection 2: the guard does not keep the first connection but acquires again and
overwrites `m_conn`.  Destroying the guard returns only the connection 2: the free
list ends as `[2, 2]`, two entries where there were three, and the connection of the
first call is never handed to `Return`. -/
theorem C7_guard_Get_twice_at_three :
    (poolOf 3).m_freeconnections = [some 0, some 1, some 2] ∧
    RedisConnectPoolGuard.new.Get (poolOf 3)
      = (.returned (some 1), { m_conn := some 1 },
          { m_connections := [none, none, none, some 0, some 1, some 2],
            m_freeconnections := [some 1, some 2] }) ∧
    RedisConnectPoolGuard.Get { m_conn := some 1 }
        { m_connections := [none, none, none, some 0, some 1, some 2],
          m_freeconnections := [some 1, some 2] }
      = (.returned (some 2), { m_conn := some 2 },
          { m_connections := [none, none, none, some 0, some 1, some 2],
            m_freeconnections := [some 2] }) ∧
    (RedisConnectPoolGuard.destroy { m_conn := some 2 }
        { m_connections := [none, none, none, some 0, some 1, some 2],
          m_freeconnections := [some 2] }).m_freeconnections = [some 2, some 2] ∧
    (RedisConnectPoolGuard.destroy { m_conn := some 2 }
        { m_connections := [none, none, none, some 0, some 1, some 2],
          m_freeconnections := [some 2] }).FreeConnectionSize = 2 := by
  decide

/-- C8 (defect of the code).  Two calls `Connect(count = 1)` on a constructed pool:
the second call's `resize(1)` drops the connection 0 from the owned list, which ends
as `[null, 1]`, while the free list is `[0, 1]`; the connection 0 is in the free list
and not in the owned list. -/
theorem C8_free_not_subset_owned :
    (poolOf 1) = { m_connections := [none, some 0], m_freeconnections := [some 0] } ∧
    connectedTwice.1 = .returned () ∧
    connectedTwice.2.2
      = { m_connections := [none, some 1], m_freeconnections := [some 0, some 1] } ∧
    some 0 ∈ connectedTwice.2.2.m_freeconnections ∧
    some 0 ∉ connectedTwice.2.2.m_connections := by
  decide

/-! ## The connect claims -/

/-- C9, counterexample.  With the password `secret` and a server that answers the
authenticate command with the status reply of the seven bytes `OK`, NUL, `junk`,
a text that is not `OK`, `ConnectWithTimeout` returns true. -/
theorem C9_counterexample :
    okNulJunk ≠ "OK" ∧ okNulJunk.length = 7 ∧
    (RedisClient.new.ConnectWithTimeout (replyTransport (some (.Status okNulJunk)))
        "127.0.0.1" 6379 50 "secret").1 = .returned true := by
  decide

/-- C9, amended.  For every host, port, timeout and non-empty password for which the
transport opens, `ConnectWithTimeout` returns true exactly when the reply to the
authenticate command is a status reply whose text, the C string compared by
`strcmp`, is `OK`; for a text without a NUL character that is: exactly when the text
is `OK`.  For an absent reply, a reply of another type, or a status reply whose text
as a C string is not `OK`, the call throws `std::runtime_error`, so it does not
return true. -/
theorem C9_ConnectWithTimeout_auth (tr : Transport) (self : RedisClient) (ip : String)
    (port ms : Nat) (password : String) (client : Nat) (hpw : password ≠ "")
    (hopen : tr.redisConnectWithTimeout (c_str ip) port (RedisClient.tv ms) = some client) :
    ((self.ConnectWithTimeout tr ip port ms password).1 = .returned true
      ↔ ∃ text, tr.redisvCommand (some client) ["auth", c_str password] = some (.Status text)
          ∧ c_str text = "OK") ∧
    (∀ text, (∀ c ∈ text.data, c.toNat ≠ 0) →
      tr.redisvCommand (some client) ["auth", c_str password] = some (.Status text) →
      ((self.ConnectWithTimeout tr ip port ms password).1 = .returned true ↔ text = "OK")) ∧
    (tr.redisvCommand (some client) ["auth", c_str password] = none →
      ∃ what, (self.ConnectWithTimeout tr ip port ms password).1 = .threw what) ∧
    (∀ rt, tr.redisvCommand (some client) ["auth", c_str password] = some rt →
      (∀ text, rt ≠ .Status text) →
      ∃ what, (self.ConnectWithTimeout tr ip port ms password).1 = .threw what) ∧
    (∀ text, tr.redisvCommand (some client) ["auth", c_str password] = some (.Status text) →
      c_str text ≠ "OK" →
      ∃ what, (self.ConnectWithTimeout tr ip port ms password).1 = .threw what) := by
  have hOK : ∀ text : String, strcmp "OK" text = 0 ↔ c_str text = "OK" := by
    intro text
    rw [strcmp_eq_zero_iff, c_str_OK]
    exact eq_comm
  simp only [RedisClient.ConnectWithTimeout, RedisClient.Command, hopen]
  generalize tr.redisvCommand (some client) ["auth", c_str password] = reply
  refine ⟨?_, ?_, ?_, ?_, ?_⟩
  · cases reply with
    | none => simp [hpw]
    | some rt =>
      cases rt <;>
        simp [hpw, Reply.type, Reply.str, REDIS_REPLY_STATUS, REDIS_REPLY_ERROR,
          REDIS_REPLY_INTEGER, REDIS_REPLY_STRING, REDIS_REPLY_NIL, REDIS_REPLY_ARRAY]
      rename_i text
      by_cases hs : strcmp "OK" text = 0
      · simp [hs, (hOK text).1 hs]
      · have hne : ¬ c_str text = "OK" := fun h => hs ((hOK text).2 h)
        simp [hs, hne]
  · intro text hnul hrep
    subst hrep
    have hc : c_str text = text := c_str_of_no_nul text hnul
    by_cases hs : strcmp "OK" text = 0
    · have hText : text = "OK" := by rw [← hc]; exact (hOK text).1 hs
      simp only [hpw, Reply.type, Reply.str, hs]
      simp [hText]
    · have : text ≠ "OK" := by
        intro h
        apply hs
        rw [hOK, hc]
        exact h
      simp [hpw, Reply.type, Reply.str, hs, this]
  · intro hrep
    subst hrep
    simp [hpw]
  · intro rt hrep hns
    subst hrep
    cases rt <;>
      simp [hpw, Reply.type, Reply.str, REDIS_REPLY_STATUS, REDIS_REPLY_ERROR,
        REDIS_REPLY_INTEGER, REDIS_REPLY_STRING, REDIS_REPLY_NIL, REDIS_REPLY_ARRAY]
    rename_i text
    exact absurd rfl (hns text)
  · intro text hrep hne
    subst hrep
    have hs : ¬ strcmp "OK" text = 0 := fun h => hne ((hOK text).1 h)
    simp [hpw, Reply.type, Reply.str, hs]

/-- C9, amended, at the password `secret` and a server that answers `OK`. -/
theorem C9_ConnectWithTimeout_auth_witness :
    ("secret" : String) ≠ "" ∧
    okTransport.redisConnectWithTimeout (c_str "127.0.0.1") 6379 (RedisClient.tv 50) = some 1 ∧
    ((RedisClient.new.ConnectWithTimeout okTransport "127.0.0.1" 6379 50 "secret").1
        = .returned true ↔ ("OK" : String) = "OK") :=
  ⟨by decide, rfl,
    (C9_ConnectWithTimeout_auth okTransport RedisClient.new "127.0.0.1" 6379 50 "secret" 1
      (by decide) rfl).2.1 "OK" (by decide) rfl⟩

/-- C10, counterexample.  With the password `secret` and a server that answers the
authenticate command with an error reply, `ConnectWithTimeout` throws and the
client still holds the transport handle opened by the call: `m_context` is not
empty. -/
theorem C10_counterexample :
    RedisClient.new.ConnectWithTimeout rejectingTransport "127.0.0.1" 6379 50 "secret"
      = (.threw "auth reply type error:( 127.0.0.1 : 6379",
          { m_host := "127.0.0.1", m_port := 6379, m_password := "secret",
            m_context := some 1 }) ∧
    ¬ (RedisClient.new.ConnectWithTimeout rejectingTransport "127.0.0.1" 6379 50
        "secret").2.m_context = none := by
  decide

/-- C10, amended.  When `ConnectWithTimeout` is called with a non-empty password, the
transport opens, and the reply to the authenticate command is not a status reply
whose text, read as a C string, is `OK` (it is absent, of another type, or a status
whose bytes before the first NUL are not `OK`), the call throws
`std::runtime_error` and the connection is not torn down: after the
call `m_context` holds the handle that the call opened, next to the host, port and
password of the call. -/
theorem C10_auth_failure_keeps_handle (tr : Transport) (self : RedisClient) (ip : String)
    (port ms : Nat) (password : String) (client : Nat) (hpw : password ≠ "")
    (hopen : tr.redisConnectWithTimeout (c_str ip) port (RedisClient.tv ms) = some client)
    (hfail : ∀ text,
      tr.redisvCommand (some client) ["auth", c_str password] = some (.Status text) →
      c_str text ≠ "OK") :
    (∃ what, (self.ConnectWithTimeout tr ip port ms password).1 = .threw what) ∧
    (self.ConnectWithTimeout tr ip port ms password).2
      = { m_host := ip, m_port := port, m_password := password, m_context := some client } := by
  have hOK : ∀ text : String, strcmp "OK" text = 0 ↔ c_str text = "OK" := by
    intro text
    rw [strcmp_eq_zero_iff, c_str_OK]
    exact eq_comm
  simp only [RedisClient.ConnectWithTimeout, RedisClient.Command, hopen]
  revert hfail
  generalize tr.redisvCommand (some client) ["auth", c_str password] = reply
  intro hfail
  cases reply with
  | none => simp [hpw]
  | some rt =>
    cases rt <;>
      simp [hpw, Reply.type, Reply.str, REDIS_REPLY_STATUS, REDIS_REPLY_ERROR,
        REDIS_REPLY_INTEGER, REDIS_REPLY_STRING, REDIS_REPLY_NIL, REDIS_REPLY_ARRAY]
    rename_i text
    have hs : ¬ strcmp "OK" text = 0 := fun h => hfail text rfl ((hOK text).1 h)
    simp [hs]

/-- C10, amended, at the password `secret` and a server that answers with an error
reply. -/
theorem C10_auth_failure_keeps_handle_witness :
    (∃ what, (RedisClient.new.ConnectWithTimeout rejectingTransport "127.0.0.1" 6379 50
        "secret").1 = .threw what) ∧
    (RedisClient.new.ConnectWithTimeout rejectingTransport "127.0.0.1" 6379 50 "secret").2
      = { m_host := "127.0.0.1", m_port := 6379, m_password := "secret",
          m_context := some 1 } :=
  C10_auth_failure_keeps_handle rejectingTransport RedisClient.new "127.0.0.1" 6379 50
    "secret" 1 (by decide) rfl (by intro text h; exact absurd h (by simp [rejectingTransport]))

/-! ## The timeout and reconnect claims -/

/-- The `timeval` of a timeout below `2 ^ 31` milliseconds: the seconds are
`ms / 1000` and the microseconds `(ms mod 1000) * 1000`. -/
theorem RedisClient.tv_of_lt (ms : Nat) (h : ms < 2 ^ 31) :
    RedisClient.tv ms
      = { tv_sec := ((ms / 1000 : Nat) : Int), tv_usec := ((ms % 1000 * 1000 : Nat) : Int) } := by
  have h64 : ms % 2 ^ 64 = ms := Nat.mod_eq_of_lt (by omega)
  have h32 : ms % 2 ^ 32 = ms := Nat.mod_eq_of_lt (by omega)
  have hll : toLongLong ms = (ms : Int) := by
    unfold toLongLong
    rw [h64, if_pos (by omega)]
  have hint : toInt ms = (ms : Int) := by
    unfold toInt
    rw [h32, if_pos h]
  unfold RedisClient.tv
  rw [hll, hint, Int.tdiv_eq_ediv (by omega) (by omega), Int.tmod_eq_emod (by omega) (by omega)]
  have hsec : (ms : Int) / 1000 = ((ms / 1000 : Nat) : Int) := by omega
  have husec : (ms : Int) % 1000 * 1000 = ((ms % 1000 * 1000 : Nat) : Int) := by omega
  rw [hsec, husec]

/-- C11 (defect of the code).  For the timeout `ms = 2147483648` (`2 ^ 31`) the
seconds are `ms / 1000 = 2147483`, but the microseconds are `-648000`: the cast in
`(int)ms % 1000 * 1000` applies to `ms` before the remainder is taken.  The value
`(ms mod 1000) * 1000` is `648000`, the microseconds are negative, and seconds and
microseconds do not add up to `ms * 1000`. -/
theorem C11_tv_at_two_pow_31 :
    RedisClient.tv 2147483648 = { tv_sec := 2147483, tv_usec := -648000 } ∧
    ((2147483648 / 1000 : Nat) : Int) = 2147483 ∧
    ((2147483648 % 1000 * 1000 : Nat) : Int) = 648000 ∧
    ¬ (0 ≤ (RedisClient.tv 2147483648).tv_usec) ∧
    (RedisClient.tv 2147483648).tv_sec * 1000000 + (RedisClient.tv 2147483648).tv_usec
      ≠ 2147483648 * 1000 := by
  decide

/-- The result of `Reconnect` for every transport result: true exactly when the
reconnect primitive returns a non-zero code; the members are unchanged. -/
theorem RedisClient.Reconnect_eq (redisReconnect : Option Nat → Int) (self : RedisClient) :
    ((self.Reconnect redisReconnect).1 = true ↔ redisReconnect self.m_context ≠ 0) ∧
    (self.Reconnect redisReconnect).2 = self := by
  simp [RedisClient.Reconnect]

/-- C12 (defect of the code).  On a connected client `Reconnect` returns false when
the reconnect primitive succeeds (`REDIS_OK`, 0) and true when it fails
(`REDIS_ERR`, -1); host, port, password and handle are unchanged in both cases. -/
theorem C12_Reconnect_inverted :
    connectedClient.Reconnect (fun _ => REDIS_OK) = (false, connectedClient) ∧
    connectedClient.Reconnect (fun _ => REDIS_ERR) = (true, connectedClient) := by
  decide

/-! ## The reply decoding claims -/

/-- C13.  When the reply to the command is `Nil`, each of `get`, `hget`, `lindex`,
`lpop`, `rpop`, `spop`, `dump` and `zscore` returns the empty optional; it does not
throw. -/
theorem C13_nil_is_no_value {δ : Type} (stod : String → Outcome δ) (tr : Transport)
    (self : RedisClient) (key field member : String) (index : Int) :
    (self.Command tr ["GET", c_str key] = some .Nil → self.get tr key = .returned none) ∧
    (self.Command tr ["HGET", c_str key, c_str field] = some .Nil →
      self.hget tr key field = .returned none) ∧
    (self.Command tr ["LINDEX", c_str key, toString index] = some .Nil →
      self.lindex tr key index = .returned none) ∧
    (self.Command tr ["LPOP", c_str key] = some .Nil → self.lpop tr key = .returned none) ∧
    (self.Command tr ["RPOP", c_str key] = some .Nil → self.rpop tr key = .returned none) ∧
    (self.Command tr ["SPOP", c_str key] = some .Nil → self.spop tr key = .returned none) ∧
    (self.Command tr ["DUMP", c_str key] = some .Nil → self.dump tr key = .returned none) ∧
    (self.Command tr ["ZSCORE", c_str key, c_str member] = some .Nil →
      self.zscore stod tr key member = .returned none) := by
  refine ⟨?_, ?_, ?_, ?_, ?_, ?_, ?_, ?_⟩ <;> intro h
  · simp [RedisClient.get, h, Reply.type, REDIS_REPLY_NIL, REDIS_REPLY_ERROR, REDIS_REPLY_STRING]
  · simp [RedisClient.hget, h, Reply.type, REDIS_REPLY_NIL, REDIS_REPLY_STRING]
  · simp [RedisClient.lindex, h, Reply.type]
  · simp [RedisClient.lpop, h, Reply.type]
  · simp [RedisClient.rpop, h, Reply.type]
  · simp [RedisClient.spop, h, Reply.type]
  · simp [RedisClient.dump, h, Reply.type, REDIS_REPLY_NIL, REDIS_REPLY_ERROR]
  · simp [RedisClient.zscore, h, Reply.type, REDIS_REPLY_NIL, REDIS_REPLY_STRING]

/-- C13 at a connected client and a server that answers every command with `Nil`. -/
theorem C13_nil_is_no_value_witness :
    connectedClient.get (replyTransport (some .Nil)) "k" = .returned none ∧
    connectedClient.hget (replyTransport (some .Nil)) "k" "f" = .returned none ∧
    connectedClient.lindex (replyTransport (some .Nil)) "k" 0 = .returned none ∧
    connectedClient.lpop (replyTransport (some .Nil)) "k" = .returned none ∧
    connectedClient.rpop (replyTransport (some .Nil)) "k" = .returned none ∧
    connectedClient.spop (replyTransport (some .Nil)) "k" = .returned none ∧
    connectedClient.dump (replyTransport (some .Nil)) "k" = .returned none ∧
    connectedClient.zscore (fun _ => Outcome.returned (0 : Int)) (replyTransport (some .Nil))
      "k" "m" = .returned none :=
  have h := C13_nil_is_no_value (fun _ => Outcome.returned (0 : Int))
    (replyTransport (some .Nil)) connectedClient "k" "f" "m" 0
  ⟨h.1 rfl, h.2.1 rfl, h.2.2.1 rfl, h.2.2.2.1 rfl, h.2.2.2.2.1 rfl, h.2.2.2.2.2.1 rfl,
    h.2.2.2.2.2.2.1 rfl, h.2.2.2.2.2.2.2 rfl⟩

/-- C14 (defect of the code).  At a server that answers `Nil`: `getset`, `getrange`,
`getbit` and `strlen` throw `std::runtime_error`, and `randonkey` builds a string
from the null `reply->str`; none of them returns the empty optional.  The sibling
`get` does return it. -/
theorem C14_nil_not_decoded :
    connectedClient.getset (replyTransport (some .Nil)) "k" "v"
      = .threw "Unexpected reply type when executing GETSET for key: k" ∧
    connectedClient.getrange (replyTransport (some .Nil)) "k" 0 1
      = .threw "Unexpected reply type when executing GETRANGE for key: k" ∧
    connectedClient.getbit (replyTransport (some .Nil)) "k" 0
      = .threw "Unexpected reply type when executing GETBIT for key: k" ∧
    connectedClient.strlen (replyTransport (some .Nil)) "k"
      = .threw "Unexpected reply type when executing STRLEN for key: k" ∧
    connectedClient.randonkey (replyTransport (some .Nil)) = .nullDeref ∧
    connectedClient.get (replyTransport (some .Nil)) "k" = .returned none := by
  decide

/-- C15, counterexample.  At a server that answers with the error reply
`ERR unknown`, `exists` and `hexists` return false and `randonkey` returns the empty
optional: `randonkey` does not throw. -/
theorem C15_counterexample :
    connectedClient.«exists» (replyTransport (some (.Error "ERR unknown"))) "k" = false ∧
    connectedClient.hexists (replyTransport (some (.Error "ERR unknown"))) "k" "f" = false ∧
    connectedClient.randonkey (replyTransport (some (.Error "ERR unknown")))
      = .returned none ∧
    ¬ ∃ what, connectedClient.randonkey (replyTransport (some (.Error "ERR unknown")))
      = .threw what := by
  have hr : connectedClient.randonkey (replyTransport (some (.Error "ERR unknown")))
      = .returned none := by decide
  refine ⟨by decide, by decide, hr, ?_⟩
  rintro ⟨what, h⟩
  rw [hr] at h
  cases h

/-- C15, amended.  When the reply to the command is an error reply, `exists`,
`expire`, `persist`, `move`, `hexists`, `hset`, `hdel`, `hmset` and `sdiffstore`
return false and `randonkey` returns the empty optional: none of them throws. -/
theorem C15_error_gives_default (tr : Transport) (self : RedisClient)
    (key field value destination text : String) (seconds db : Int)
    (fields keys : List String) (values : List (String × String)) :
    (self.Command tr ["EXISTS", c_str key] = some (.Error text) →
      self.«exists» tr key = false) ∧
    (self.Command tr ["EXPIRE", c_str key, toString seconds] = some (.Error text) →
      self.expire tr key seconds = false) ∧
    (self.Command tr ["PERSIST", c_str key] = some (.Error text) →
      self.persist tr key = false) ∧
    (self.Command tr ["MOVE", c_str key, toString db] = some (.Error text) →
      self.move tr key db = false) ∧
    (self.Command tr ["HEXISTS", c_str key, c_str field] = some (.Error text) →
      self.hexists tr key field = false) ∧
    (self.Command tr ["HSET", c_str key, c_str field, c_str value] = some (.Error text) →
      self.hset tr key field value = false) ∧
    (self.CommandText tr (RedisClient.appendItems ("HDEL " ++ key) fields)
        = .returned (some (.Error text)) →
      self.hdel tr key fields = .returned false) ∧
    (self.CommandText tr (RedisClient.appendPairs ("HMSET " ++ key) values)
        = .returned (some (.Error text)) →
      self.hmset tr key values = .returned false) ∧
    (self.CommandText tr (RedisClient.appendItems ("SDIFFSTORE " ++ destination) keys)
        = .returned (some (.Error text)) →
      self.sdiffstore tr destination keys = .returned false) ∧
    (self.Command tr ["RANDOMKEY"] = some (.Error text) →
      self.randonkey tr = .returned none) := by
  refine ⟨?_, ?_, ?_, ?_, ?_, ?_, ?_, ?_, ?_, ?_⟩ <;> intro h
  · simp [RedisClient.«exists», h, Reply.type, Reply.integer]
  · simp [RedisClient.expire, h, Reply.type, Reply.integer]
  · simp [RedisClient.persist, h, Reply.type, Reply.integer]
  · simp [RedisClient.move, h, Reply.type, Reply.integer]
  · simp [RedisClient.hexists, h, Reply.type, Reply.integer]
  · simp [RedisClient.hset, h, Reply.type, Reply.integer]
  · simp [RedisClient.hdel, h, Reply.type, Reply.integer]
  · simp [RedisClient.hmset, h, Reply.type, REDIS_REPLY_ERROR, REDIS_REPLY_STRING]
  · simp [RedisClient.sdiffstore, h, Reply.type, REDIS_REPLY_ERROR, REDIS_REPLY_INTEGER]
  · simp [RedisClient.randonkey, h, Reply.type]

/-- C15, amended, at a connected client and a server that answers every command
with the error reply `ERR unknown`. -/
theorem C15_error_gives_default_witness :
    connectedClient.«exists» (replyTransport (some (.Error "ERR unknown"))) "k" = false ∧
    connectedClient.hdel (replyTransport (some (.Error "ERR unknown"))) "k" ["f", "g"]
      = .returned false ∧
    connectedClient.randonkey (replyTransport (some (.Error "ERR unknown")))
      = .returned none :=
  have h := C15_error_gives_default (replyTransport (some (.Error "ERR unknown")))
    connectedClient "k" "f" "v" "d" "ERR unknown" 1 0 ["f", "g"] ["a"] [("f", "v")]
  ⟨h.1 rfl, h.2.2.2.2.2.2.1 rfl, h.2.2.2.2.2.2.2.2.2 rfl⟩

/-- A text occurs in every text that ends with it. -/
theorem occursIn_append (head part : String) : occursIn part (head ++ part) := by
  unfold occursIn
  rw [String.data_append]
  exact ⟨head.data, [], by simp⟩

/-- The concatenation of two texts has no NUL character exactly when neither has. -/
theorem noNul_append (a b : String) : noNul (a ++ b) ↔ noNul a ∧ noNul b := by
  unfold noNul
  rw [String.data_append]
  constructor
  · intro h
    exact ⟨fun c hc => h c (List.mem_append.2 (Or.inl hc)),
      fun c hc => h c (List.mem_append.2 (Or.inr hc))⟩
  · intro h c hc
    rcases List.mem_append.1 hc with hl | hr
    · exact h.1 c hl
    · exact h.2 c hr

/-- A C string has no NUL character. -/
theorem noNul_c_str (s : String) : noNul (c_str s) := by
  intro c hc
  have hp := List.mem_takeWhile_imp hc
  simpa using hp

/-- The text of `what()` for a message without a NUL character is the message. -/
theorem what_of_noNul (message : String) (h : noNul message) : what message = message :=
  c_str_of_no_nul message h

/-- The command text built from a head and items without a NUL character has none. -/
theorem RedisClient.noNul_appendItems (items : List String) :
    ∀ head : String, noNul head → (∀ item ∈ items, noNul item) →
      noNul (RedisClient.appendItems head items) := by
  induction items with
  | nil => intro head hh _; exact hh
  | cons item rest ih =>
    intro head hh hitems
    have hstep : RedisClient.appendItems head (item :: rest)
        = RedisClient.appendItems (head ++ " " ++ item) rest := by
      simp [RedisClient.appendItems]
    rw [hstep]
    apply ih
    · rw [noNul_append, noNul_append]
      exact ⟨⟨hh, by decide⟩, hitems item (by simp)⟩
    · intro it hit
      exact hitems it (by simp [hit])

/-- The command text built from a head and pairs without a NUL character has none. -/
theorem RedisClient.noNul_appendPairs (values : List (String × String)) :
    ∀ head : String, noNul head → (∀ pair ∈ values, noNul pair.1 ∧ noNul pair.2) →
      noNul (RedisClient.appendPairs head values) := by
  induction values with
  | nil => intro head hh _; exact hh
  | cons pair rest ih =>
    intro head hh hvalues
    have hstep : RedisClient.appendPairs head (pair :: rest)
        = RedisClient.appendPairs (head ++ " " ++ pair.1 ++ " " ++ pair.2) rest := by
      simp [RedisClient.appendPairs]
    have hp := hvalues pair (by simp)
    rw [hstep]
    apply ih
    · rw [noNul_append, noNul_append, noNul_append, noNul_append]
      exact ⟨⟨⟨⟨hh, by decide⟩, hp.1⟩, by decide⟩, hp.2⟩
    · intro q hq
      exact hvalues q (by simp [hq])

/-- C16, counterexample.  At a server that answers `hget` with the error reply
`WRONGTYPE`, the exception thrown has the message
`Unexpected reply type when executing HGET for key: k`, in which the server's text
does not occur. -/
theorem C16_counterexample :
    connectedClient.hget (replyTransport (some (.Error "WRONGTYPE"))) "k" "f"
      = .threw "Unexpected reply type when executing HGET for key: k" ∧
    ¬ occursIn "WRONGTYPE" (what "Unexpected reply type when executing HGET for key: k") := by
  decide

/-- C16, amended.  For keys, values and fields without a NUL character, when the
reply to the command is `Error(text)`: `get`, `set`, `incr`, `mget` and `mset`, which
test for the error type, throw an exception whose message, as `what()` yields it,
ends with the server's text (the C string of `reply->str`), so the text occurs in
it; `hget`, `hgetall`, `hincrby`, `scard`, `sadd`, `zadd` and `lpush`, which reject
the reply by its type, throw an exception whose message is a fixed text followed by
the key and does not depend on the server's text. -/
theorem C16_error_message {δ : Type} (showScore : δ → String) (tr : Transport)
    (self : RedisClient) (key value field text : String) (increment : Int)
    (keys members : List String) (values : List (String × String))
    (scores : List (String × δ))
    (hkey : noNul key) (hvalue : noNul value) (hkeys : ∀ k ∈ keys, noNul k)
    (hvalues : ∀ pair ∈ values, noNul pair.1 ∧ noNul pair.2) :
    (self.Command tr ["GET", c_str key] = some (.Error text) →
      self.get tr key
          = .threw ("redis error, command : GET " ++ key ++ ", error message : " ++ c_str text) ∧
        occursIn (c_str text)
          (what ("redis error, command : GET " ++ key ++ ", error message : "
            ++ c_str text))) ∧
    (self.Command tr ["SET", c_str key, c_str value] = some (.Error text) →
      self.set tr key value
          = .threw ("redis error, command : SET " ++ key ++ " " ++ value
              ++ ", error message : " ++ c_str text) ∧
        occursIn (c_str text)
          (what ("redis error, command : SET " ++ key ++ " " ++ value
            ++ ", error message : " ++ c_str text))) ∧
    (self.Command tr ["INCR", c_str key] = some (.Error text) →
      self.incr tr key
          = .threw ("Redis error, command: INCR " ++ key ++ ", error message: " ++ c_str text) ∧
        occursIn (c_str text)
          (what ("Redis error, command: INCR " ++ key ++ ", error message: "
            ++ c_str text))) ∧
    (self.CommandText tr (RedisClient.appendItems "MGET" keys)
        = .returned (some (.Error text)) →
      self.mget tr keys
          = .threw ("Redis error, command: MGET " ++ RedisClient.appendItems "MGET" keys
              ++ ", error message: " ++ c_str text) ∧
        occursIn (c_str text)
          (what ("Redis error, command: MGET " ++ RedisClient.appendItems "MGET" keys
            ++ ", error message: " ++ c_str text))) ∧
    (self.CommandText tr (RedisClient.appendPairs "MSET" values)
        = .returned (some (.Error text)) →
      self.mset tr values
          = .threw ("Redis error, command: MSET " ++ RedisClient.appendPairs "MSET" values
              ++ ", error message: " ++ c_str text) ∧
        occursIn (c_str text)
          (what ("Redis error, command: MSET " ++ RedisClient.appendPairs "MSET" values
            ++ ", error message: " ++ c_str text))) ∧
    (self.Command tr ["HGET", c_str key, c_str field] = some (.Error text) →
      self.hget tr key field
          = .threw ("Unexpected reply type when executing HGET for key: " ++ key) ∧
        what ("Unexpected reply type when executing HGET for key: " ++ key)
          = "Unexpected reply type when executing HGET for key: " ++ key) ∧
    (self.Command tr ["HGETALL", c_str key] = some (.Error text) →
      self.hgetall tr key
          = .threw ("Unexpected reply when executing HGETALL for key: " ++ key) ∧
        what ("Unexpected reply when executing HGETALL for key: " ++ key)
          = "Unexpected reply when executing HGETALL for key: " ++ key) ∧
    (self.Command tr ["HINCRBY", c_str key, c_str field, toString increment]
        = some (.Error text) →
      self.hincrby tr key field increment
          = .threw ("Unexpected reply when executing HINCRBY for key: " ++ key) ∧
        what ("Unexpected reply when executing HINCRBY for key: " ++ key)
          = "Unexpected reply when executing HINCRBY for key: " ++ key) ∧
    (self.Command tr ["SCARD", c_str key] = some (.Error text) →
      self.scard tr key = .threw ("Unexpected reply when executing SCARD for key: " ++ key) ∧
        what ("Unexpected reply when executing SCARD for key: " ++ key)
          = "Unexpected reply when executing SCARD for key: " ++ key) ∧
    (self.CommandText tr (RedisClient.appendItems ("SADD " ++ key) members)
        = .returned (some (.Error text)) →
      self.sadd tr key members
          = .threw ("Unexpected reply when executing SADD for key: " ++ key) ∧
        what ("Unexpected reply when executing SADD for key: " ++ key)
          = "Unexpected reply when executing SADD for key: " ++ key) ∧
    (self.CommandText tr
        (scores.foldl (fun cmd pair => cmd ++ " " ++ showScore pair.2 ++ " " ++ pair.1)
          ("ZADD " ++ key)) = .returned (some (.Error text)) →
      self.zadd showScore tr key scores
          = .threw ("Unexpected reply when executing ZADD for key: " ++ key) ∧
        what ("Unexpected reply when executing ZADD for key: " ++ key)
          = "Unexpected reply when executing ZADD for key: " ++ key) ∧
    (self.CommandText tr (RedisClient.appendItems ("LPUSH " ++ key) members)
        = .returned (some (.Error text)) →
      self.lpush tr key members
          = .threw ("Unexpected reply when executing LPUSH for key: " ++ key) ∧
        what ("Unexpected reply when executing LPUSH for key: " ++ key)
          = "Unexpected reply when executing LPUSH for key: " ++ key) := by
  have htext := noNul_c_str text
  have hfixed : ∀ head : String, noNul head → what (head ++ key) = head ++ key :=
    fun head hh => what_of_noNul _ ((noNul_append head key).2 ⟨hh, hkey⟩)
  have hends : ∀ head : String, noNul head →
      occursIn (c_str text) (what (head ++ c_str text)) := by
    intro head hh
    rw [what_of_noNul _ ((noNul_append head (c_str text)).2 ⟨hh, htext⟩)]
    exact occursIn_append _ _
  refine ⟨?_, ?_, ?_, ?_, ?_, ?_, ?_, ?_, ?_, ?_, ?_, ?_⟩ <;> intro h
  · refine ⟨by simp [RedisClient.get, h, Reply.type, Reply.str, readStr], hends _ ?_⟩
    rw [noNul_append, noNul_append]
    exact ⟨⟨by decide, hkey⟩, by decide⟩
  · refine ⟨by simp [RedisClient.set, h, Reply.type, Reply.str, readStr], hends _ ?_⟩
    rw [noNul_append, noNul_append, noNul_append, noNul_append]
    exact ⟨⟨⟨⟨by decide, hkey⟩, by decide⟩, hvalue⟩, by decide⟩
  · refine ⟨by simp [RedisClient.incr, h, Reply.type, Reply.str, readStr], hends _ ?_⟩
    rw [noNul_append, noNul_append]
    exact ⟨⟨by decide, hkey⟩, by decide⟩
  · refine ⟨by simp [RedisClient.mget, h, Reply.type, Reply.str, readStr, REDIS_REPLY_ERROR,
      REDIS_REPLY_ARRAY], hends _ ?_⟩
    rw [noNul_append, noNul_append]
    exact ⟨⟨by decide, RedisClient.noNul_appendItems keys "MGET" (by decide) hkeys⟩,
      by decide⟩
  · refine ⟨by simp [RedisClient.mset, h, Reply.type, Reply.str, readStr, REDIS_REPLY_ERROR,
      REDIS_REPLY_STATUS], hends _ ?_⟩
    rw [noNul_append, noNul_append]
    exact ⟨⟨by decide, RedisClient.noNul_appendPairs values "MSET" (by decide) hvalues⟩,
      by decide⟩
  · exact ⟨by simp [RedisClient.hget, h, Reply.type, REDIS_REPLY_ERROR, REDIS_REPLY_STRING,
      REDIS_REPLY_NIL], hfixed _ (by decide)⟩
  · exact ⟨by simp [RedisClient.hgetall, h, Reply.type, REDIS_REPLY_ERROR,
      REDIS_REPLY_ARRAY], hfixed _ (by decide)⟩
  · exact ⟨by simp [RedisClient.hincrby, h, Reply.type, REDIS_REPLY_ERROR,
      REDIS_REPLY_INTEGER], hfixed _ (by decide)⟩
  · exact ⟨by simp [RedisClient.scard, h, Reply.type, REDIS_REPLY_ERROR,
      REDIS_REPLY_INTEGER], hfixed _ (by decide)⟩
  · exact ⟨by simp [RedisClient.sadd, h, Reply.type, REDIS_REPLY_ERROR,
      REDIS_REPLY_INTEGER], hfixed _ (by decide)⟩
  · exact ⟨by simp [RedisClient.zadd, h, Reply.type, REDIS_REPLY_ERROR,
      REDIS_REPLY_INTEGER], hfixed _ (by decide)⟩
  · exact ⟨by simp [RedisClient.lpush, h, Reply.type, REDIS_REPLY_ERROR,
      REDIS_REPLY_INTEGER], hfixed _ (by decide)⟩

/-- C16, amended, at a connected client and a server that answers every command
with the error reply `WRONGTYPE`. -/
theorem C16_error_message_witness :
    (connectedClient.get (replyTransport (some (.Error "WRONGTYPE"))) "k"
        = .threw ("redis error, command : GET " ++ "k" ++ ", error message : "
            ++ c_str "WRONGTYPE") ∧
      occursIn (c_str "WRONGTYPE")
        (what ("redis error, command : GET " ++ "k" ++ ", error message : "
          ++ c_str "WRONGTYPE"))) ∧
    (connectedClient.mget (replyTransport (some (.Error "WRONGTYPE"))) ["a"]
        = .threw ("Redis error, command: MGET " ++ RedisClient.appendItems "MGET" ["a"]
            ++ ", error message: " ++ c_str "WRONGTYPE") ∧
      occursIn (c_str "WRONGTYPE")
        (what ("Redis error, command: MGET " ++ RedisClient.appendItems "MGET" ["a"]
          ++ ", error message: " ++ c_str "WRONGTYPE"))) ∧
    (connectedClient.scard (replyTransport (some (.Error "WRONGTYPE"))) "k"
        = .threw ("Unexpected reply when executing SCARD for key: " ++ "k") ∧
      what ("Unexpected reply when executing SCARD for key: " ++ "k")
        = "Unexpected reply when executing SCARD for key: " ++ "k") :=
  have h := C16_error_message (fun n : Nat => toString n)
    (replyTransport (some (.Error "WRONGTYPE"))) connectedClient "k" "v" "f" "WRONGTYPE" 1
    ["a"] ["m"] [("a", "b")] [("m", 1)] (by decide) (by decide) (by decide) (by decide)
  ⟨h.1 rfl, h.2.2.2.1 rfl, h.2.2.2.2.2.2.2.2.1 rfl⟩

/-- C17, counterexample.  With no reply to the command, `get` returns the empty
optional and `setex` returns false: neither throws. -/
theorem C17_counterexample :
    connectedClient.get (replyTransport none) "k" = .returned none ∧
    connectedClient.setex (replyTransport none) "k" 10 "v" = .returned false ∧
    ¬ (∃ what, connectedClient.get (replyTransport none) "k" = .threw what) := by
  have hg : connectedClient.get (replyTransport none) "k" = .returned none := by decide
  refine ⟨hg, by decide, ?_⟩
  rintro ⟨what, h⟩
  rw [hg] at h
  cases h

/-- C17, amended.  When the command is sent and yields no reply: `get`, `getset`, `getrange`,
`getbit` and `strlen` return the empty optional and `setbit`, `setex`, `setnx` and
`setrange` return false, without an exception; `incr`, `mget`, `mset`, `hget`,
`hgetall`, `hincrby`, `scard`, `spop`, `lpop` and `rpop` throw
`std::runtime_error`. -/
theorem C17_absent_reply (tr : Transport) (self : RedisClient)
    (key value field : String) (start stop offset bit seconds increment : Int)
    (keys : List String) (values : List (String × String)) :
    (self.Command tr ["GET", c_str key] = none → self.get tr key = .returned none) ∧
    (self.Command tr ["GETSET", c_str key, c_str value] = none →
      self.getset tr key value = .returned none) ∧
    (self.Command tr ["GETRANGE", c_str key, toString start, toString stop] = none →
      self.getrange tr key start stop = .returned none) ∧
    (self.Command tr ["GETBIT", c_str key, toString offset] = none →
      self.getbit tr key offset = .returned none) ∧
    (self.Command tr ["STRLEN", c_str key] = none → self.strlen tr key = .returned none) ∧
    (self.Command tr ["SETBIT", c_str key, toString offset, toString bit] = none →
      self.setbit tr key offset bit = .returned false) ∧
    (self.Command tr ["SETEX", c_str key, toString seconds, c_str value] = none →
      self.setex tr key seconds value = .returned false) ∧
    (self.Command tr ["SETNX", c_str key, c_str value] = none →
      self.setnx tr key value = .returned false) ∧
    (self.Command tr ["SETRANGE", c_str key, toString offset, c_str value] = none →
      self.setrange tr key offset value = .returned false) ∧
    (self.Command tr ["INCR", c_str key] = none →
      self.incr tr key = .threw "Failed to increment key without specific error message") ∧
    (self.CommandText tr (RedisClient.appendItems "MGET" keys) = .returned none →
      self.mget tr keys = .threw "Unexpected reply type when executing MGET") ∧
    (self.CommandText tr (RedisClient.appendPairs "MSET" values) = .returned none →
      self.mset tr values = .threw "Unexpected reply or failed to execute MSET") ∧
    (self.Command tr ["HGET", c_str key, c_str field] = none →
      self.hget tr key field
        = .threw ("Unexpected reply type when executing HGET for key: " ++ key)) ∧
    (self.Command tr ["HGETALL", c_str key] = none →
      self.hgetall tr key
        = .threw ("Unexpected reply when executing HGETALL for key: " ++ key)) ∧
    (self.Command tr ["HINCRBY", c_str key, c_str field, toString increment] = none →
      self.hincrby tr key field increment
        = .threw ("Unexpected reply when executing HINCRBY for key: " ++ key)) ∧
    (self.Command tr ["SCARD", c_str key] = none →
      self.scard tr key = .threw ("Unexpected reply when executing SCARD for key: " ++ key)) ∧
    (self.Command tr ["SPOP", c_str key] = none →
      self.spop tr key = .threw ("Unexpected reply when executing SPOP for key: " ++ key)) ∧
    (self.Command tr ["LPOP", c_str key] = none →
      self.lpop tr key = .threw ("Unexpected reply when executing LPOP for key: " ++ key)) ∧
    (self.Command tr ["RPOP", c_str key] = none →
      self.rpop tr key = .threw ("Unexpected reply when executing RPOP for key: " ++ key)) := by
  refine ⟨?_, ?_, ?_, ?_, ?_, ?_, ?_, ?_, ?_, ?_, ?_, ?_, ?_, ?_, ?_, ?_, ?_, ?_, ?_⟩ <;>
    intro h
  · simp [RedisClient.get, h]
  · simp [RedisClient.getset, h]
  · simp [RedisClient.getrange, h]
  · simp [RedisClient.getbit, h]
  · simp [RedisClient.strlen, h]
  · simp [RedisClient.setbit, h]
  · simp [RedisClient.setex, h]
  · simp [RedisClient.setnx, h]
  · simp [RedisClient.setrange, h]
  · simp [RedisClient.incr, h]
  · simp [RedisClient.mget, h]
  · simp [RedisClient.mset, h]
  · simp [RedisClient.hget, h]
  · simp [RedisClient.hgetall, h]
  · simp [RedisClient.hincrby, h]
  · simp [RedisClient.scard, h]
  · simp [RedisClient.spop, h]
  · simp [RedisClient.lpop, h]
  · simp [RedisClient.rpop, h]

/-- C17, amended, at a connected client and a transport that yields no reply. -/
theorem C17_absent_reply_witness :
    connectedClient.get (replyTransport none) "k" = .returned none ∧
    connectedClient.setnx (replyTransport none) "k" "v" = .returned false ∧
    connectedClient.incr (replyTransport none) "k"
      = .threw "Failed to increment key without specific error message" :=
  have h := C17_absent_reply (replyTransport none) connectedClient "k" "v" "f" 0 1 0 1 10 1
    ["a"] [("a", "b")]
  ⟨h.1 rfl, h.2.2.2.2.2.2.2.1 rfl, h.2.2.2.2.2.2.2.2.2.1 rfl⟩

/-- C18 (defect of the code).  With no reply to the command, each of `del`, `keys`,
`pttl`, `ttl`, `type` and `set` enters the branch that throws and builds the message
from `reply->str`, a read through the null reply pointer, before anything is
thrown. -/
theorem C18_absent_reply_dereferenced :
    connectedClient.del (replyTransport none) "k" = .nullDeref ∧
    connectedClient.keys (replyTransport none) "*" = .nullDeref ∧
    connectedClient.pttl (replyTransport none) "k" = .nullDeref ∧
    connectedClient.ttl (replyTransport none) "k" = .nullDeref ∧
    connectedClient.type (replyTransport none) "k" = .nullDeref ∧
    connectedClient.set (replyTransport none) "k" "v" = .nullDeref := by
  decide

/-- C19 (defect of the code).  For the bulk string of the three bytes `a`, NUL, `b`:
`keys` returns the key `a`, `randonkey` returns the key `a`, and `hgetall` returns
the field name `a` (with the three bytes as the value); `get`, `hget`, `mget`,
`hkeys` and `hvals` return the three bytes. -/
theorem C19_bulk_bytes_at_nul :
    aNulB.length = 3 ∧ c_str aNulB = "a" ∧
    connectedClient.keys (replyTransport (some (.Array [.BulkString aNulB]))) "*"
      = .returned ["a"] ∧
    connectedClient.randonkey (replyTransport (some (.BulkString aNulB)))
      = .returned (some "a") ∧
    connectedClient.hgetall
        (replyTransport (some (.Array [.BulkString aNulB, .BulkString aNulB]))) "k"
      = .returned [("a", aNulB)] ∧
    connectedClient.get (replyTransport (some (.BulkString aNulB))) "k"
      = .returned (some aNulB) ∧
    connectedClient.hget (replyTransport (some (.BulkString aNulB))) "k" "f"
      = .returned (some aNulB) ∧
    connectedClient.mget (replyTransport (some (.Array [.BulkString aNulB]))) ["k"]
      = .returned [some aNulB] ∧
    connectedClient.hkeys (replyTransport (some (.Array [.BulkString aNulB]))) "k"
      = .returned [aNulB] ∧
    connectedClient.hvals (replyTransport (some (.Array [.BulkString aNulB]))) "k"
      = .returned [aNulB] := by
  decide

/-- The loop of `hgetall` on an odd number of bulk strings reads `element[i + 1]`
past the end of the array. -/
theorem RedisClient.hgetallLoop_odd (key : String) :
    ∀ (n : Nat) (bulks : List String) (result : List (String × String)),
      bulks.length = 2 * n + 1 →
      RedisClient.hgetallLoop key (bulks.map Reply.BulkString) result = .outOfBounds := by
  intro n
  induction n with
  | zero =>
    intro bulks result h
    match bulks, h with
    | [b], _ => rfl
  | succ k ih =>
    intro bulks result h
    match bulks, h with
    | f :: v :: rest, h =>
      have hrest : rest.length = 2 * k + 1 := by
        simp only [List.length_cons] at h
        omega
      simp only [List.map_cons, RedisClient.hgetallLoop, Reply.type, Reply.str, and_self,
        if_true]
      exact ih rest _ hrest

/-- C20 (defect of the code).  For an `Array` reply with one bulk string, and for one
with three, `hgetall` does not throw: the loop reads `element[i + 1]` past the end of
the array. -/
theorem C20_hgetall_odd_array :
    connectedClient.hgetall (replyTransport (some (.Array [.BulkString "f"]))) "k"
      = .outOfBounds ∧
    connectedClient.hgetall
        (replyTransport (some (.Array [.BulkString "f", .BulkString "v", .BulkString "g"])))
        "k"
      = .outOfBounds := by
  decide

/-! ## The remaining decoding claims -/

/-- The test `!reply->type == REDIS_REPLY_ERROR` is false for every reply: `!` applies
to the type tag, which is never zero. -/
theorem logicalNot_type_ne_error (reply : Reply) :
    logicalNot reply.type ≠ REDIS_REPLY_ERROR := by
  cases reply <;>
    simp [Reply.type, logicalNot, REDIS_REPLY_STATUS, REDIS_REPLY_ERROR, REDIS_REPLY_INTEGER,
      REDIS_REPLY_STRING, REDIS_REPLY_NIL, REDIS_REPLY_ARRAY]

/-- The functions built on `!reply->type == REDIS_REPLY_ERROR` return false for every
transport and every argument. -/
theorem RedisClient.error_test_always_false (tr : Transport) (self : RedisClient)
    (key other : String) (n : Int) :
    self.«exists» tr key = false ∧ self.expire tr key n = false ∧
    self.expireat tr key n = false ∧ self.pexpire tr key n = false ∧
    self.pexpireat tr key n = false ∧ self.move tr key n = false ∧
    self.persist tr key = false ∧ self.rename tr key other = false ∧
    self.renamenx tr key other = false := by
  refine ⟨?_, ?_, ?_, ?_, ?_, ?_, ?_, ?_, ?_⟩
  · unfold RedisClient.«exists»
    split <;> simp [logicalNot_type_ne_error]
  · unfold RedisClient.expire
    split <;> simp [logicalNot_type_ne_error]
  · unfold RedisClient.expireat
    split <;> simp [logicalNot_type_ne_error]
  · unfold RedisClient.pexpire
    split <;> simp [logicalNot_type_ne_error]
  · unfold RedisClient.pexpireat
    split <;> simp [logicalNot_type_ne_error]
  · unfold RedisClient.move
    split <;> simp [logicalNot_type_ne_error]
  · unfold RedisClient.persist
    split <;> simp [logicalNot_type_ne_error]
  · unfold RedisClient.rename
    split <;> simp [logicalNot_type_ne_error]
  · unfold RedisClient.renamenx
    split <;> simp [logicalNot_type_ne_error]

/-- C25 (defect of the code).  At a server that answers with the status reply `OK`,
`del`, `pttl` and `ttl` return 0 and `setnx` returns false; `setnx` returns false for
a bulk string reply as well; `lrange` returns `[a]` for the array of the integer 7
and the bulk string `a`.  None of them throws. -/
theorem C25_unexpected_shape_accepted :
    connectedClient.del (replyTransport (some (.Status "OK"))) "k" = .returned 0 ∧
    connectedClient.pttl (replyTransport (some (.Status "OK"))) "k" = .returned 0 ∧
    connectedClient.ttl (replyTransport (some (.Status "OK"))) "k" = .returned 0 ∧
    connectedClient.setnx (replyTransport (some (.Status "OK"))) "k" "v" = .returned false ∧
    connectedClient.setnx (replyTransport (some (.BulkString "x"))) "k" "v"
      = .returned false ∧
    connectedClient.lrange (replyTransport (some (.Array [.Integer 7, .BulkString "a"])))
      "k" 0 1 = .returned ["a"] := by
  decide

/-- C27 (defect of the code).  At a server that answers `Integer(1)`, each of `exists`,
`expire`, `expireat`, `pexpire`, `pexpireat`, `move`, `persist` and `renamenx` returns
false. -/
theorem C27_integer_one_gives_false :
    connectedClient.«exists» (replyTransport (some (.Integer 1))) "k" = false ∧
    connectedClient.expire (replyTransport (some (.Integer 1))) "k" 10 = false ∧
    connectedClient.expireat (replyTransport (some (.Integer 1))) "k" 10 = false ∧
    connectedClient.pexpire (replyTransport (some (.Integer 1))) "k" 10 = false ∧
    connectedClient.pexpireat (replyTransport (some (.Integer 1))) "k" 10 = false ∧
    connectedClient.move (replyTransport (some (.Integer 1))) "k" 1 = false ∧
    connectedClient.persist (replyTransport (some (.Integer 1))) "k" = false ∧
    connectedClient.renamenx (replyTransport (some (.Integer 1))) "a" "b" = false := by
  decide

/-- C28 (defect of the code).  For the key `k` and one field, `hmset` returns false
when the reply is the status reply `OK` and true when the reply is the bulk string
`OK`. -/
theorem C28_hmset_status_ok :
    connectedClient.hmset (replyTransport (some (.Status "OK"))) "k" [("f", "v")]
      = .returned false ∧
    connectedClient.hmset (replyTransport (some (.BulkString "OK"))) "k" [("f", "v")]
      = .returned true := by
  decide

/-- The command text of `blpop` for a single key: the timeout follows the key with
nothing between them. -/
theorem RedisClient.blpopCommand_single (key : String) (timeout : Int) :
    RedisClient.blpopCommand [key] timeout = "BLPOP " ++ key ++ "" ++ toString timeout := by
  rfl

/-- C29 (defect of the code).  For the keys `k1`, `k2` and the timeout 5 the command
text of `blpop` is `BLPOP k1 k25` and that of `brpop` is `BRPOP k1 k25`: no space is
written after the last key, so the command has the arguments `k1` and `k25` and no
timeout argument of its own. -/
theorem C29_blpop_command_text :
    RedisClient.blpopCommand ["k1", "k2"] 5 = "BLPOP k1 k25" ∧
    RedisClient.brpopCommand ["k1", "k2"] 5 = "BRPOP k1 k25" ∧
    RedisClient.blpopCommand ["k1", "k2"] 5 ≠ "BLPOP k1 k2 5" ∧
    formatWords (c_str (RedisClient.blpopCommand ["k1", "k2"] 5))
      = some ["BLPOP", "k1", "k25"] ∧
    formatWords (c_str (RedisClient.brpopCommand ["k1", "k2"] 5))
      = some ["BRPOP", "k1", "k25"] := by
  decide

/-- The template of `set` with its two arguments formats to the command `SET`, first
argument, second argument, whatever characters the arguments hold. -/
theorem formatArgs_SET (k v : String) :
    formatArgs "SET %s %s" [.str k, .str v] = .argv ["SET", k, v] := by
  rfl

/-- The four `Command` calls whose template has one conversion more than the call
passes arguments: for every input the formatter reads a variadic argument after the
last one. -/
theorem formatArgs_missing (key field value position pivot source destination : String)
    (index : Int) :
    formatArgs "HSETNX %s %s %s %s" [.str key, .str field, .str value] = .missingArgument ∧
    formatArgs "LSET %s %lld %s %s" [.str key, .int index, .str value] = .missingArgument ∧
    formatArgs "LINSERT %s %s %s %s %s" [.str key, .str position, .str pivot, .str value]
      = .missingArgument ∧
    formatArgs "RPOPLPUSH %s %s %s" [.str source, .str destination] = .missingArgument := by
  exact ⟨rfl, rfl, rfl, rfl⟩

/-- C26 (defect of the code).  The templates of `hsetnx`, `lset`, `linsert` and
`rpoplpush` have 4, 4, 5 and 3 conversions, and the calls pass 3, 3, 4 and 2
arguments: formatting reads an argument that was not passed, in each of the four
functions.  The template of `set` has as many conversions as the call passes
arguments. -/
theorem C26_placeholders_and_arguments :
    placeholders "HSETNX %s %s %s %s".data = 4 ∧
    placeholders "LSET %s %lld %s %s".data = 4 ∧
    placeholders "LINSERT %s %s %s %s %s".data = 5 ∧
    placeholders "RPOPLPUSH %s %s %s".data = 3 ∧
    connectedClient.hsetnx (replyTransport (some (.Integer 1))) "k" "f" "v" = .outOfBounds ∧
    connectedClient.lset (replyTransport (some (.Status "OK"))) "k" 0 "v" = .outOfBounds ∧
    connectedClient.linsert (replyTransport (some (.Integer 1))) "k" "p" "v" true
      = .outOfBounds ∧
    connectedClient.rpoplpush (replyTransport (some (.BulkString "x"))) "s" "d"
      = .outOfBounds ∧
    placeholders "SET %s %s".data = 2 := by
  decide

/-! ## The pairing claim -/

/-- The value of a field after an assignment. -/
theorem lookup_assign (m : List (String × String)) (field value other : String) :
    lookup (RedisClient.assign m field value) other
      = if field = other then some value else lookup m other := by
  induction m with
  | nil => simp [RedisClient.assign, lookup]
  | cons entry rest ih =>
    obtain ⟨f, v⟩ := entry
    by_cases hf : f = field
    · subst hf
      by_cases ho : f = other <;> simp [RedisClient.assign, lookup, ho]
    · by_cases ho : f = other
      · subst ho
        have hne : ¬ field = f := fun h => hf h.symm
        simp [RedisClient.assign, lookup, hf, hne]
      · simp [RedisClient.assign, lookup, hf, ho, ih]

/-- An assignment to a field that the map does not have adds the entry at the end. -/
theorem assign_of_not_mem (m : List (String × String)) (field value : String)
    (h : field ∉ m.map Prod.fst) :
    RedisClient.assign m field value = m ++ [(field, value)] := by
  induction m with
  | nil => rfl
  | cons entry rest ih =>
    obtain ⟨f, v⟩ := entry
    simp only [List.map_cons, List.mem_cons, not_or] at h
    have hne : ¬ f = field := fun e => h.1 e.symm
    simp [RedisClient.assign, hne, ih h.2]

/-- The loop of `hgetall` on an array of field/value pairs of bulk strings: every pair
is assigned in order, the field read as a C string. -/
theorem RedisClient.hgetallLoop_pairs (key : String) (pairs : List (String × String)) :
    ∀ result : List (String × String),
      RedisClient.hgetallLoop key (pairElements pairs) result
        = .returned
            (pairs.foldl (fun m pair => RedisClient.assign m (c_str pair.1) pair.2) result) := by
  induction pairs with
  | nil => intro result; rfl
  | cons pair rest ih =>
    intro result
    have hcons : pairElements (pair :: rest)
        = Reply.BulkString pair.1 :: Reply.BulkString pair.2 :: pairElements rest := by
      simp [pairElements]
    rw [hcons]
    simp only [RedisClient.hgetallLoop, Reply.type, Reply.str, and_self, if_true,
      List.foldl_cons]
    exact ih _

/-- The pairs assigned in order to fields that are pairwise distinct and not in the
map are added to the map in order. -/
theorem foldl_assign_of_nodup (pairs : List (String × String)) :
    ∀ m : List (String × String),
      (m.map Prod.fst ++ pairs.map Prod.fst).Nodup →
      pairs.foldl (fun m pair => RedisClient.assign m pair.1 pair.2) m = m ++ pairs := by
  induction pairs with
  | nil => intro m _; simp
  | cons pair rest ih =>
    intro m h
    have hnot : pair.1 ∉ m.map Prod.fst := by
      intro hmem
      rw [List.nodup_append] at h
      exact h.2.2 hmem (by simp)
    rw [List.foldl_cons, assign_of_not_mem m pair.1 pair.2 hnot, ih]
    · simp
    · have hperm : (List.map Prod.fst (m ++ [(pair.1, pair.2)]) ++ List.map Prod.fst rest)
          = List.map Prod.fst m ++ List.map Prod.fst (pair :: rest) := by
        simp
      rw [hperm]
      exact h

/-- The result of `hgetall` for an `Array` reply of field/value pairs of bulk strings:
the pairs assigned in server order, a later pair overriding an earlier one with the
same field read as a C string. -/
theorem RedisClient.hgetall_pairs (tr : Transport) (self : RedisClient) (key : String)
    (pairs : List (String × String))
    (h : self.Command tr ["HGETALL", c_str key] = some (.Array (pairElements pairs))) :
    self.hgetall tr key
      = .returned
          (pairs.foldl (fun m pair => RedisClient.assign m (c_str pair.1) pair.2) []) := by
  simp only [RedisClient.hgetall, h, Reply.type, Reply.element]
  simp [RedisClient.hgetallLoop_pairs]

/-- The result of `hgetall` when the fields hold no NUL character and are pairwise
distinct: the map has exactly the given pairs, one entry for each. -/
theorem RedisClient.hgetall_pairs_distinct (tr : Transport) (self : RedisClient)
    (key : String) (pairs : List (String × String))
    (h : self.Command tr ["HGETALL", c_str key] = some (.Array (pairElements pairs)))
    (hnul : ∀ pair ∈ pairs, ∀ c ∈ pair.1.data, c.toNat ≠ 0)
    (hdistinct : (pairs.map Prod.fst).Nodup) :
    self.hgetall tr key = .returned pairs := by
  rw [RedisClient.hgetall_pairs tr self key pairs h]
  have hfold : ∀ (ps : List (String × String)) (m : List (String × String)),
      (∀ pair ∈ ps, ∀ c ∈ pair.1.data, c.toNat ≠ 0) →
      ps.foldl (fun m pair => RedisClient.assign m (c_str pair.1) pair.2) m
        = ps.foldl (fun m pair => RedisClient.assign m pair.1 pair.2) m := by
    intro ps
    induction ps with
    | nil => intro m _; rfl
    | cons p rest ih =>
      intro m hp
      have hc : c_str p.1 = p.1 := c_str_of_no_nul p.1 (hp p (by simp))
      simp only [List.foldl_cons, hc]
      exact ih _ (fun q hq => hp q (by simp [hq]))
  rw [hfold pairs [] hnul, foldl_assign_of_nodup pairs [] (by simpa using hdistinct)]
  simp

/-- C21 (defect of the code).  For the `Array` reply of the two pairs (`a` NUL `b`, `1`)
and (`a` NUL `c`, `2`), whose fields are distinct bulk strings, `hgetall` returns a
map with the single entry `a` to `2`: the fields are read as C strings, so neither
field is a key of the map and the map has one entry, not two. -/
theorem C21_hgetall_pairs_at_nul :
    aNulB ≠ aNulC ∧
    connectedClient.hgetall
        (replyTransport (some (.Array (pairElements [(aNulB, "1"), (aNulC, "2")])))) "k"
      = .returned [("a", "2")] ∧
    lookup [("a", "2")] aNulB = none ∧
    lookup [("a", "2")] aNulC = none ∧
    ([("a", "2")] : List (String × String)).length = 1 := by
  decide

/-! ## The round trip and batching claims -/

/-- The command `set` sends decides its result: two transports that give the same
reply to `SET`, key, value (both as C strings) give the same result of `set`. -/
theorem RedisClient.set_command (tr tr2 : Transport) (self : RedisClient) (key value : String)
    (h : self.Command tr ["SET", c_str key, c_str value]
      = self.Command tr2 ["SET", c_str key, c_str value]) :
    self.set tr key value = self.set tr2 key value := by
  simp only [RedisClient.set, h]

/-- The string `get` returns for a bulk string reply: exactly its bytes. -/
theorem RedisClient.get_bulk (tr : Transport) (self : RedisClient) (key bytes : String)
    (h : self.Command tr ["GET", c_str key] = some (.BulkString bytes)) :
    self.get tr key = .returned (some bytes) := by
  simp [RedisClient.get, h, Reply.type, Reply.str, readStr, REDIS_REPLY_STRING,
    REDIS_REPLY_ERROR]

/-- The round trip through the store for every value: `get` returns the C string of
the value that `set` was given. -/
theorem RedisClient.set_get_c_str (db : List (String × String)) (self : RedisClient)
    (key value : String) :
    self.set (storeTransport db) key value = .returned true ∧
    self.get (storeTransport (serve db ["SET", c_str key, c_str value]).2) key
      = .returned (some (c_str value)) := by
  have hOK : strcmp "OK" "OK" = 0 := by decide
  constructor
  · simp [RedisClient.set, RedisClient.Command, storeTransport, serve, Reply.type, Reply.str,
      readStr, REDIS_REPLY_STATUS, REDIS_REPLY_ERROR, hOK]
  · apply RedisClient.get_bulk
    simp [RedisClient.Command, storeTransport, serve, lookup_assign]

/-- The reply of `answerOnly` to its own command. -/
theorem answerOnly_self (ctx : Option Nat) (argv : List String) (reply : Option Reply) :
    (answerOnly argv reply).redisvCommand ctx argv = reply := by
  simp [answerOnly]

/-- The reply of `answerOnly` to another command: none. -/
theorem answerOnly_other (ctx : Option Nat) (argv sent : List String) (reply : Option Reply)
    (h : sent ≠ argv) : (answerOnly argv reply).redisvCommand ctx sent = none := by
  simp [answerOnly, h]

/-- The command of `set`: if `set` returns true at the transport that answers only
`argv`, then `argv` is `SET`, key, value, both as C strings. -/
theorem RedisClient.set_answerOnly (self : RedisClient) (argv : List String)
    (key value : String) (reply : Option Reply)
    (h : self.set (answerOnly argv reply) key value = .returned true) :
    argv = ["SET", c_str key, c_str value] := by
  by_contra hne
  have hnone := answerOnly_other self.m_context argv ["SET", c_str key, c_str value] reply
    (fun heq => hne heq.symm)
  simp [RedisClient.set, RedisClient.Command, hnone] at h

/-- The command of `get`: if `get` returns a value at the transport that answers only
`argv`, then `argv` is `GET`, key (as a C string). -/
theorem RedisClient.get_answerOnly (self : RedisClient) (argv : List String)
    (key bytes : String) (reply : Option Reply)
    (h : self.get (answerOnly argv reply) key = .returned (some bytes)) :
    argv = ["GET", c_str key] := by
  by_contra hne
  have hnone := answerOnly_other self.m_context argv ["GET", c_str key] reply
    (fun heq => hne heq.symm)
  simp [RedisClient.get, RedisClient.Command, hnone] at h

/-- C23, counterexample.  For the value of the three bytes `a`, NUL, `b`: `set` returns
true at the transport that answers only the command `SET k a`, so the command it
sends carries the value argument `a`; and after `set` on an empty store, which then
holds what that command carried, `get` returns `a`, not the value set. -/
theorem C23_counterexample :
    connectedClient.set (answerOnly ["SET", "k", "a"] (some (.Status "OK"))) "k" aNulB
      = .returned true ∧
    connectedClient.set (answerOnly ["SET", "k", aNulB] (some (.Status "OK"))) "k" aNulB
      = .nullDeref ∧
    connectedClient.set (storeTransport []) "k" aNulB = .returned true ∧
    connectedClient.get (storeTransport (serve [] ["SET", "k", "a"]).2) "k"
      = .returned (some "a") ∧
    some "a" ≠ some aNulB := by
  decide

/-- C23, amended.  For every key and every value without a NUL character:
the command that `set` sends is `SET`, the key (as a C string) and exactly the bytes
of the value: for every transport the result of `set` is its result at the transport
that answers only this command, with the reply the transport gives to it, and at
the transport that answers only this command with `OK` the result is true;
`get` decodes a bulk string reply to exactly its bytes, and the command it sends is
`GET`, key; and against the store, `set` returns true, and `get` at the store that
has received the command of `set` returns exactly the value: whatever command
`argv` it is that `set` sends (`set` returns true at the transport that answers only
`argv`), `argv` is the command above and `get` at the store that has received `argv`
returns the value. -/
theorem C23_set_get_round_trip (db : List (String × String)) (self : RedisClient)
    (key value : String) (hnul : ∀ c ∈ value.data, c.toNat ≠ 0) :
    (∀ tr : Transport,
      self.set tr key value
        = self.set
            (answerOnly ["SET", c_str key, value]
              (tr.redisvCommand self.m_context ["SET", c_str key, value])) key value) ∧
    self.set (answerOnly ["SET", c_str key, value] (some (.Status "OK"))) key value
      = .returned true ∧
    formatArgs "SET %s %s" [.str (c_str key), .str (c_str value)]
      = .argv ["SET", c_str key, value] ∧
    (∀ (tr : Transport) (bytes : String),
      self.Command tr ["GET", c_str key] = some (.BulkString bytes) →
      self.get tr key = .returned (some bytes)) ∧
    self.set (storeTransport db) key value = .returned true ∧
    self.get (storeTransport (serve db ["SET", c_str key, value]).2) key
      = .returned (some value) ∧
    (∀ (argv : List String) (bytes : String),
      self.get (answerOnly argv (some (.BulkString bytes))) key = .returned (some bytes) →
      argv = ["GET", c_str key]) ∧
    (∀ argv : List String,
      self.set (answerOnly argv (some (.Status "OK"))) key value = .returned true →
      argv = ["SET", c_str key, value] ∧
      self.get (storeTransport (serve db argv).2) key = .returned (some value)) := by
  have hc : c_str value = value := c_str_of_no_nul value hnul
  have hrt := RedisClient.set_get_c_str db self key value
  have hOK : strcmp "OK" "OK" = 0 := by decide
  have hget : self.get (storeTransport (serve db ["SET", c_str key, value]).2) key
      = .returned (some value) := by
    have h := hrt.2
    rw [hc] at h
    exact h
  refine ⟨?_, ?_, ?_, fun tr bytes h => RedisClient.get_bulk tr self key bytes h, hrt.1, hget,
    fun argv bytes h => RedisClient.get_answerOnly self argv key bytes _ h, ?_⟩
  · intro tr
    simp only [RedisClient.set, RedisClient.Command, hc, answerOnly_self]
  · simp [RedisClient.set, RedisClient.Command, hc, answerOnly_self, Reply.type, Reply.str,
      readStr, REDIS_REPLY_STATUS, REDIS_REPLY_ERROR, hOK]
  · rw [formatArgs_SET, hc]
  · intro argv h
    have hargv := RedisClient.set_answerOnly self argv key value _ h
    rw [hc] at hargv
    rw [hargv]
    exact ⟨rfl, hget⟩

/-- C23, amended, at the key `k` and the value `hello world` on an empty store. -/
theorem C23_set_get_round_trip_witness :
    connectedClient.set (answerOnly ["SET", c_str "k", "hello world"] (some (.Status "OK")))
        "k" "hello world" = .returned true ∧
    connectedClient.set (storeTransport []) "k" "hello world" = .returned true ∧
    connectedClient.get (storeTransport (serve [] ["SET", c_str "k", "hello world"]).2) "k"
      = .returned (some "hello world") :=
  have h := C23_set_get_round_trip [] connectedClient "k" "hello world" (by decide)
  ⟨h.2.1, h.2.2.2.2.1, h.2.2.2.2.2.1⟩

/-- One step of the formatter on a character that is neither a space nor `%`. -/
theorem formatLoop_cons_plain (c : Char) (rest cur : List Char) (touched : Bool)
    (argv : List String) (h32 : c.toNat ≠ 32) (h37 : c.toNat ≠ 37) :
    formatLoop (c :: rest) cur touched argv = formatLoop rest (cur ++ [c]) true argv := by
  rw [formatLoop.eq_def]
  simp [h32, h37]

/-- One step of the formatter on a space after a started argument. -/
theorem formatLoop_cons_space (rest cur : List Char) (argv : List String) :
    formatLoop (Char.ofNat 32 :: rest) cur true argv
      = formatLoop rest [] false (argv ++ [String.mk cur]) := by
  have h32 : (Char.ofNat 32).toNat = 32 := by decide
  rw [formatLoop.eq_def]
  simp [h32]

/-- The formatter on characters that are neither a space nor `%`: they are appended
to the current argument. -/
theorem formatLoop_word (w : List Char) (hw : ∀ c ∈ w, c.toNat ≠ 32 ∧ c.toNat ≠ 37) :
    ∀ (rest cur : List Char) (touched : Bool) (argv : List String),
      formatLoop (w ++ rest) cur touched argv
        = formatLoop rest (cur ++ w) (touched || !w.isEmpty) argv := by
  induction w with
  | nil => intro rest cur touched argv; simp
  | cons c w ih =>
    intro rest cur touched argv
    have hc := hw c (by simp)
    have hrest : ∀ d ∈ w, d.toNat ≠ 32 ∧ d.toNat ≠ 37 := fun d hd => hw d (by simp [hd])
    rw [List.cons_append, formatLoop_cons_plain c _ cur touched argv hc.1 hc.2, ih hrest]
    simp

/-- The formatter on a sequence of words, each written after a space: every word
becomes an argument of its own. -/
theorem formatLoop_words (ws : List String) (hws : ∀ w ∈ ws, cleanWord w) :
    ∀ (cur : List Char) (argv : List String),
      formatLoop (ws.flatMap fun w => Char.ofNat 32 :: w.data) cur true argv
        = some (argv ++ [String.mk cur] ++ ws) := by
  induction ws with
  | nil => intro cur argv; simp [formatLoop]
  | cons w ws ih =>
    intro cur argv
    have hw := hws w (by simp)
    have hrest : ∀ v ∈ ws, cleanWord v := fun v hv => hws v (by simp [hv])
    have hclean : ∀ c ∈ w.data, c.toNat ≠ 32 ∧ c.toNat ≠ 37 :=
      fun c hc => ⟨(hw.2 c hc).1, (hw.2 c hc).2.1⟩
    have hne : w.data.isEmpty = false := by
      cases hd : w.data with
      | nil => exact absurd hd hw.1
      | cons _ _ => rfl
    have htouched : (false || !w.data.isEmpty) = true := by simp [hne]
    rw [List.flatMap_cons, List.cons_append, formatLoop_cons_space,
      formatLoop_word w.data hclean, htouched, ih hrest]
    simp

/-- The characters of the text that `appendPairs` builds. -/
theorem RedisClient.appendPairs_data (values : List (String × String)) :
    ∀ head : String,
      (RedisClient.appendPairs head values).data
        = head.data ++ (flattenPairs values).flatMap fun w => Char.ofNat 32 :: w.data := by
  induction values with
  | nil => intro head; simp [RedisClient.appendPairs, flattenPairs]
  | cons pair rest ih =>
    intro head
    have hstep : RedisClient.appendPairs head (pair :: rest)
        = RedisClient.appendPairs (head ++ " " ++ pair.1 ++ " " ++ pair.2) rest := by
      simp [RedisClient.appendPairs]
    have hsp : (" " : String).data = [Char.ofNat 32] := by decide
    rw [hstep, ih]
    simp [flattenPairs, String.data_append, hsp]

/-- The command that `mset` sends for keys and values that are clean words: `MSET`
followed by every key and value as an argument of its own, in order. -/
theorem formatWords_mset (values : List (String × String))
    (hclean : ∀ pair ∈ values, cleanWord pair.1 ∧ cleanWord pair.2) :
    formatWords (c_str (RedisClient.appendPairs "MSET" values))
      = some ("MSET" :: flattenPairs values) := by
  have hwords : ∀ w ∈ flattenPairs values, cleanWord w := by
    intro w hw
    simp only [flattenPairs, List.mem_flatMap] at hw
    obtain ⟨pair, hp, hmem⟩ := hw
    simp only [List.mem_cons, List.mem_singleton, List.not_mem_nil, or_false] at hmem
    rcases hmem with h | h
    · rw [h]; exact (hclean pair hp).1
    · rw [h]; exact (hclean pair hp).2
  have hdata := RedisClient.appendPairs_data values "MSET"
  have hnul : ∀ c ∈ (RedisClient.appendPairs "MSET" values).data, c.toNat ≠ 0 := by
    intro c hc
    rw [hdata, List.mem_append] at hc
    rcases hc with h | h
    · have hall : ∀ d ∈ ("MSET" : String).data, d.toNat ≠ 0 := by decide
      exact hall c h
    · simp only [List.mem_flatMap, List.mem_cons] at h
      obtain ⟨w, hw, hcw⟩ := h
      rcases hcw with h32 | hin
      · rw [h32]; decide
      · exact ((hwords w hw).2 c hin).2.2
  rw [c_str_of_no_nul _ hnul]
  unfold formatWords
  rw [hdata]
  have hhead : ∀ c ∈ ("MSET" : String).data, c.toNat ≠ 32 ∧ c.toNat ≠ 37 := by decide
  have htouched : (false || !("MSET" : String).data.isEmpty) = true := by decide
  rw [formatLoop_word _ hhead, htouched, formatLoop_words _ hwords]
  simp

/-- The store after `MSET` with the keys and values of the pairs: every pair assigned
in order. -/
theorem storePairs_flattenPairs (values : List (String × String)) :
    ∀ db : List (String × String),
      storePairs db (flattenPairs values)
        = values.foldl (fun db pair => RedisClient.assign db pair.1 pair.2) db := by
  induction values with
  | nil => intro db; rfl
  | cons pair rest ih =>
    intro db
    have hcons : flattenPairs (pair :: rest) = pair.1 :: pair.2 :: flattenPairs rest := by
      simp [flattenPairs]
    rw [hcons, storePairs, ih, List.foldl_cons]

/-- The number of keys and values of a list of pairs. -/
theorem flattenPairs_length (values : List (String × String)) :
    (flattenPairs values).length = 2 * values.length := by
  induction values with
  | nil => rfl
  | cons pair rest ih =>
    have hcons : flattenPairs (pair :: rest) = pair.1 :: pair.2 :: flattenPairs rest := by
      simp [flattenPairs]
    rw [hcons]
    simp only [List.length_cons, ih]
    omega

/-- The arguments of a command text that is `MSET` followed by clean words, each
written after a space. -/
theorem formatWords_of_words (text : String) (ws : List String)
    (hws : ∀ w ∈ ws, cleanWord w)
    (hdata : text.data
      = ("MSET" : String).data ++ ws.flatMap fun w => Char.ofNat 32 :: w.data) :
    formatWords (c_str text) = some ("MSET" :: ws) := by
  have hnul : ∀ c ∈ text.data, c.toNat ≠ 0 := by
    intro c hc
    rw [hdata, List.mem_append] at hc
    rcases hc with h | h
    · have hall : ∀ d ∈ ("MSET" : String).data, d.toNat ≠ 0 := by decide
      exact hall c h
    · simp only [List.mem_flatMap, List.mem_cons] at h
      obtain ⟨w, hw, hcw⟩ := h
      rcases hcw with h32 | hin
      · rw [h32]; decide
      · exact ((hws w hw).2 c hin).2.2
  rw [c_str_of_no_nul _ hnul]
  unfold formatWords
  rw [hdata]
  have hhead : ∀ c ∈ ("MSET" : String).data, c.toNat ≠ 32 ∧ c.toNat ≠ 37 := by decide
  have htouched : (false || !("MSET" : String).data.isEmpty) = true := by decide
  rw [formatLoop_word _ hhead, htouched, formatLoop_words _ hws]
  simp

/-- The command of `mset` for one pair whose key is two clean words with a space
between them: the key is split into two arguments. -/
theorem formatWords_mset_split (a b v : String) (ha : cleanWord a) (hb : cleanWord b)
    (hv : cleanWord v) :
    formatWords (c_str (RedisClient.appendPairs "MSET" [(a ++ " " ++ b, v)]))
      = some ["MSET", a, b, v] := by
  apply formatWords_of_words
  · intro w hw
    simp only [List.mem_cons, List.mem_singleton, List.not_mem_nil, or_false] at hw
    rcases hw with h | h | h
    · rw [h]; exact ha
    · rw [h]; exact hb
    · rw [h]; exact hv
  · have hsp : (" " : String).data = [Char.ofNat 32] := by decide
    simp [RedisClient.appendPairs, String.data_append, hsp]

/-- The command of `mset` for clean words: if `mset` returns true at the transport
that answers only `argv`, then `argv` is `MSET, k1, v1, ..., kn, vn`. -/
theorem RedisClient.mset_answerOnly (self : RedisClient) (argv : List String)
    (values : List (String × String)) (reply : Option Reply)
    (hclean : ∀ pair ∈ values, cleanWord pair.1 ∧ cleanWord pair.2)
    (h : self.mset (answerOnly argv reply) values = .returned true) :
    argv = "MSET" :: flattenPairs values := by
  have hfmt := formatWords_mset values hclean
  by_contra hne
  have hnone := answerOnly_other self.m_context argv ("MSET" :: flattenPairs values) reply
    (fun heq => hne heq.symm)
  simp [RedisClient.mset, RedisClient.CommandText, hfmt, RedisClient.Command, hnone] at h

/-- C24, counterexample.  For the single pair (`a b`, `v`), `mset` returns true at the
transport that answers only the command `MSET a b v`, and gets no reply at the
transport that answers only `MSET`, `a b`, `v`: the key is split at its space, where
`set` sends the key `a b` as one argument; the store rejects the command of `mset`,
which throws, where `set` assigns the value.  For the value `100%d` the command
text holds a conversion and the formatter reads an argument that was not passed. -/
theorem C24_counterexample :
    connectedClient.mset (answerOnly ["MSET", "a", "b", "v"] (some (.Status "OK")))
        [("a b", "v")] = .returned true ∧
    connectedClient.mset (answerOnly ["MSET", "a b", "v"] (some (.Status "OK")))
        [("a b", "v")] = .threw "Unexpected reply or failed to execute MSET" ∧
    flattenPairs [("a b", "v")] = ["a b", "v"] ∧
    connectedClient.set (answerOnly ["SET", "a b", "v"] (some (.Status "OK"))) "a b" "v"
      = .returned true ∧
    connectedClient.set (storeTransport []) "a b" "v" = .returned true ∧
    connectedClient.mset (storeTransport []) [("a b", "v")]
      = .threw ("Redis error, command: MSET MSET a b v, error message: "
          ++ "ERR wrong number of arguments") ∧
    connectedClient.mset (storeTransport []) [("k", "100%d")] = .outOfBounds := by
  decide

/-- C24, amended.  For every list of pairs whose keys and values are not empty and
hold no space, no `%` and no NUL character, the command that `mset` sends has the
argument list `MSET, k1, v1, ..., kn, vn`, every key and every value one argument,
in order: for every transport the result of `mset` is its result at the transport
that answers only this command, with the reply the transport gives to it, and at
the transport that answers only this command with `OK` the result is true.  The
command that `set` sends for each pair is `SET`, key, value; and for a list that is
not empty, `mset` on the store returns true and the store after the command of
`mset` is the store after the commands of `set` for the pairs in order: whatever
command `argv` it is that `mset` sends and whatever command `cmdOf pair` it is that
`set` sends for each pair (the operation returns true at the transport that answers
only that command), the store that has received `argv` is the store that has
received the commands `cmdOf pair` one after the other.  A key of two such words
with a space between them is sent as two arguments. -/
theorem C24_mset_clean_words (db : List (String × String)) (self : RedisClient)
    (values : List (String × String))
    (hclean : ∀ pair ∈ values, cleanWord pair.1 ∧ cleanWord pair.2) :
    formatWords (c_str (RedisClient.appendPairs "MSET" values))
      = some ("MSET" :: flattenPairs values) ∧
    (∀ tr : Transport,
      self.mset tr values
        = self.mset
            (answerOnly ("MSET" :: flattenPairs values)
              (tr.redisvCommand self.m_context ("MSET" :: flattenPairs values))) values) ∧
    self.mset (answerOnly ("MSET" :: flattenPairs values) (some (.Status "OK"))) values
      = .returned true ∧
    (∀ pair ∈ values,
      self.set (answerOnly ["SET", pair.1, pair.2] (some (.Status "OK"))) pair.1 pair.2
        = .returned true) ∧
    (values ≠ [] →
      self.mset (storeTransport db) values = .returned true ∧
      (serve db ("MSET" :: flattenPairs values)).2
        = values.foldl (fun db pair => (serve db ["SET", pair.1, pair.2]).2) db) ∧
    (∀ a b v : String, cleanWord a → cleanWord b → cleanWord v →
      self.mset (answerOnly ["MSET", a, b, v] (some (.Status "OK"))) [(a ++ " " ++ b, v)]
        = .returned true) ∧
    (values ≠ [] →
      ∀ (argv : List String) (cmdOf : String × String → List String),
        self.mset (answerOnly argv (some (.Status "OK"))) values = .returned true →
        (∀ pair ∈ values,
          self.set (answerOnly (cmdOf pair) (some (.Status "OK"))) pair.1 pair.2
            = .returned true) →
        (serve db argv).2 = values.foldl (fun db pair => (serve db (cmdOf pair)).2) db) := by
  have hfmt := formatWords_mset values hclean
  have hOK : strcmp "OK" "OK" = 0 := by decide
  have hstore : values ≠ [] →
      (serve db ("MSET" :: flattenPairs values)).2
        = values.foldl (fun db pair => (serve db ["SET", pair.1, pair.2]).2) db := by
    intro hne
    have hlen : (flattenPairs values).length % 2 = 0 := by
      rw [flattenPairs_length]
      omega
    have hflat : flattenPairs values ≠ [] := by
      intro h
      have h0 := flattenPairs_length values
      rw [h] at h0
      cases values with
      | nil => exact hne rfl
      | cons _ _ => simp at h0
    have hserve : serve db ("MSET" :: flattenPairs values)
        = (some (.Status "OK"), storePairs db (flattenPairs values)) := by
      simp [serve, hlen, hflat]
    rw [hserve, storePairs_flattenPairs]
    apply List.foldl_ext
    intro d p _
    simp [serve]
  refine ⟨hfmt, ?_, ?_, ?_, fun hne => ?_, ?_, fun hne argv cmdOf hm hs => ?_⟩
  · intro tr
    simp only [RedisClient.mset, RedisClient.CommandText, hfmt, RedisClient.Command,
      answerOnly_self]
  · simp [RedisClient.mset, RedisClient.CommandText, hfmt, RedisClient.Command,
      answerOnly_self, Reply.type, Reply.str, readStr, hOK]
  · intro pair hp
    have hc := hclean pair hp
    have h1 : c_str pair.1 = pair.1 :=
      c_str_of_no_nul pair.1 (fun c hcm => (hc.1.2 c hcm).2.2)
    have h2 : c_str pair.2 = pair.2 :=
      c_str_of_no_nul pair.2 (fun c hcm => (hc.2.2 c hcm).2.2)
    simp [RedisClient.set, RedisClient.Command, h1, h2, answerOnly_self, Reply.type,
      Reply.str, readStr, REDIS_REPLY_STATUS, REDIS_REPLY_ERROR, hOK]
  · have hlen : (flattenPairs values).length % 2 = 0 := by
      rw [flattenPairs_length]
      omega
    have hflat : flattenPairs values ≠ [] := by
      intro h
      have h0 := flattenPairs_length values
      rw [h] at h0
      cases values with
      | nil => exact hne rfl
      | cons _ _ => simp at h0
    have hserve : serve db ("MSET" :: flattenPairs values)
        = (some (.Status "OK"), storePairs db (flattenPairs values)) := by
      simp [serve, hlen, hflat]
    constructor
    · simp [RedisClient.mset, RedisClient.CommandText, hfmt, RedisClient.Command,
        storeTransport, hserve, Reply.type, Reply.str, readStr, hOK]
    · exact hstore hne
  · intro a b v ha hb hv
    have hsplit := formatWords_mset_split a b v ha hb hv
    simp [RedisClient.mset, RedisClient.CommandText, hsplit, RedisClient.Command,
      answerOnly_self, Reply.type, Reply.str, readStr, hOK]
  · have hargv := RedisClient.mset_answerOnly self argv values _ hclean hm
    rw [hargv, hstore hne]
    apply List.foldl_ext
    intro d p hp
    have hc := hclean p hp
    have h1 : c_str p.1 = p.1 := c_str_of_no_nul p.1 (fun c hcm => (hc.1.2 c hcm).2.2)
    have h2 : c_str p.2 = p.2 := c_str_of_no_nul p.2 (fun c hcm => (hc.2.2 c hcm).2.2)
    have hcmd := RedisClient.set_answerOnly self (cmdOf p) p.1 p.2 _ (hs p hp)
    rw [hcmd, h1, h2]

/-- C24, amended, at the three pairs (`k1`, `v1`), (`k2`, `v2`), (`k3`, `v3`) on an
empty store. -/
theorem C24_mset_clean_words_witness :
    connectedClient.mset
        (answerOnly ("MSET" :: flattenPairs [("k1", "v1"), ("k2", "v2"), ("k3", "v3")])
          (some (.Status "OK")))
        [("k1", "v1"), ("k2", "v2"), ("k3", "v3")] = .returned true ∧
    connectedClient.mset (storeTransport []) [("k1", "v1"), ("k2", "v2"), ("k3", "v3")]
      = .returned true :=
  have h := C24_mset_clean_words [] connectedClient [("k1", "v1"), ("k2", "v2"), ("k3", "v3")]
    (by decide)
  ⟨h.2.2.1, (h.2.2.2.2.1 (by decide)).1⟩

end Redis
